import Mathlib

/-!
# hello_triangle.cpp: a shallow embedding

The program opens a window, builds one shader program and one indexed mesh,
and draws it once per frame until the window is asked to close.

The repository's code is `main`, `framebuffer_size_callback`, `processInput`
and `createShaderProgram`; they are translated statement by statement onto an
explicit `World` (graphics state, window close flag, the six global handle
variables, console output, and the sequence of library calls made).

The graphics and windowing libraries are external collaborators.  Their calls
are modelled after the OpenGL 3.3 core profile and GLFW 3 reference pages, for
the argument errors those pages document (wrong kind of object name, negative
size, no vertex array bound).  Resource exhaustion inside the driver is not
modelled.  What the driver decides on its own (object names handed out, whether
a shader compiles, whether the program links, the diagnostic texts, the largest
viewport) is collected in `Platform`, and theorems quantify over it.
-/

namespace HelloTriangle

/-! ## Data model -/

/-- Size in bytes of a C `float` / `GLfloat` (IEEE single precision). -/
def sizeofFloat : Nat := 4

/-- Size in bytes of a C `unsigned int` / `GLuint`. -/
def sizeofUInt : Nat := 4

/-- A floating point literal of the source, kept as the exact fraction `num/den`
it is written as. -/
structure FloatLit where
  num : Int
  den : Nat
  deriving DecidableEq, Repr

/-- The rational number a literal denotes. -/
def FloatLit.toRat (f : FloatLit) : ℚ := (f.num : ℚ) / (f.den : ℚ)

inductive ShaderKind
  | vertex
  | fragment
  deriving DecidableEq, Repr

inductive BufferTarget
  | arrayBuffer
  | elementArrayBuffer
  deriving DecidableEq, Repr

/-- The sticky error flag of a graphics context. -/
inductive GLError
  | noError
  | invalidEnum
  | invalidValue
  | invalidOperation
  deriving DecidableEq, Repr

/-- Contents handed to `glBufferData`. -/
inductive BufferData
  | none
  | floats (xs : List FloatLit)
  | uints (xs : List Nat)
  deriving DecidableEq, Repr

structure Viewport where
  x : Int
  y : Int
  width : Int
  height : Int
  deriving DecidableEq, Repr

structure ShaderObj where
  name : Nat
  kind : ShaderKind
  source : Option String
  compiled : Bool
  infoLog : List Nat
  deleteFlagged : Bool
  deriving DecidableEq, Repr

structure ProgramObj where
  name : Nat
  attached : List Nat
  linked : Bool
  infoLog : List Nat
  deleteFlagged : Bool
  deriving DecidableEq, Repr

structure BufferObj where
  name : Nat
  size : Nat
  data : BufferData
  deriving DecidableEq, Repr

/-- State of one generic vertex attribute inside a vertex array object. -/
structure VertexAttrib where
  enabled : Bool
  size : Nat
  normalized : Bool
  stride : Nat
  offset : Nat
  buffer : Nat
  deriving DecidableEq, Repr

/-- Initial state of an attribute: disabled, 4 components, no buffer. -/
def VertexAttrib.initial : VertexAttrib :=
  { enabled := false, size := 4, normalized := false, stride := 0, offset := 0, buffer := 0 }

structure VertexArrayObj where
  name : Nat
  elementArrayBinding : Nat
  attribs : List (Nat × VertexAttrib)
  deriving DecidableEq, Repr

/-- Attribute `i` of a vertex array object. -/
def VertexArrayObj.attrib (v : VertexArrayObj) (i : Nat) : VertexAttrib :=
  match v.attribs.find? (fun e => e.1 == i) with
  | some e => e.2
  | Option.none => VertexAttrib.initial

/-- Replace attribute `i` of a vertex array object. -/
def VertexArrayObj.setAttrib (v : VertexArrayObj) (i : Nat) (a : VertexAttrib) : VertexArrayObj :=
  { v with attribs := (i, a) :: v.attribs.filter (fun e => !(e.1 == i)) }

/-- The part of a graphics context the program touches. -/
structure GLState where
  error : GLError
  viewport : Viewport
  maxViewportWidth : Int
  maxViewportHeight : Int
  clearColor : List FloatLit
  currentProgram : Nat
  arrayBufferBinding : Nat
  vertexArrayBinding : Nat
  shaders : List ShaderObj
  programs : List ProgramObj
  bufferNames : List Nat
  buffers : List BufferObj
  vertexArrayNames : List Nat
  vertexArrays : List VertexArrayObj
  deriving DecidableEq, Repr

namespace GLState

/-- Record an error; the flag keeps the first error until it is queried. -/
def raise (e : GLError) (s : GLState) : GLState :=
  if s.error = GLError.noError then { s with error := e } else s

def findShader (s : GLState) (n : Nat) : Option ShaderObj :=
  s.shaders.find? (fun o => o.name == n)

def findProgram (s : GLState) (n : Nat) : Option ProgramObj :=
  s.programs.find? (fun o => o.name == n)

def findBuffer (s : GLState) (n : Nat) : Option BufferObj :=
  s.buffers.find? (fun o => o.name == n)

def findVertexArray (s : GLState) (n : Nat) : Option VertexArrayObj :=
  s.vertexArrays.find? (fun o => o.name == n)

def mapShader (s : GLState) (n : Nat) (f : ShaderObj → ShaderObj) : GLState :=
  { s with shaders := s.shaders.map (fun o => if o.name = n then f o else o) }

def mapProgram (s : GLState) (n : Nat) (f : ProgramObj → ProgramObj) : GLState :=
  { s with programs := s.programs.map (fun o => if o.name = n then f o else o) }

def mapBuffer (s : GLState) (n : Nat) (f : BufferObj → BufferObj) : GLState :=
  { s with buffers := s.buffers.map (fun o => if o.name = n then f o else o) }

def mapVertexArray (s : GLState) (n : Nat) (f : VertexArrayObj → VertexArrayObj) : GLState :=
  { s with vertexArrays := s.vertexArrays.map (fun o => if o.name = n then f o else o) }

/-- Error raised when `n` is used as a shader name but is not one: a program
name is the wrong kind of object, any other value was never generated. -/
def notAShader (s : GLState) (n : Nat) : GLError :=
  if (s.findProgram n).isSome then GLError.invalidOperation else GLError.invalidValue

/-- Error raised when `n` is used as a program name but is not one. -/
def notAProgram (s : GLState) (n : Nat) : GLError :=
  if (s.findShader n).isSome then GLError.invalidOperation else GLError.invalidValue

/-- Buffer object name bound to a target: the array buffer binding is context
state, the element array binding belongs to the bound vertex array object. -/
def bufferBinding (s : GLState) (t : BufferTarget) : Nat :=
  match t with
  | BufferTarget.arrayBuffer => s.arrayBufferBinding
  | BufferTarget.elementArrayBuffer =>
    match s.findVertexArray s.vertexArrayBinding with
    | some v => v.elementArrayBinding
    | Option.none => 0

/-- State of a context that has just been made current on a window whose
framebuffer is `width` by `height`. -/
def initial (width height maxW maxH : Int) : GLState :=
  { error := GLError.noError
    viewport := { x := 0, y := 0, width := width, height := height }
    maxViewportWidth := maxW
    maxViewportHeight := maxH
    clearColor := [⟨0, 1⟩, ⟨0, 1⟩, ⟨0, 1⟩, ⟨0, 1⟩]
    currentProgram := 0
    arrayBufferBinding := 0
    vertexArrayBinding := 0
    shaders := []
    programs := []
    bufferNames := []
    buffers := []
    vertexArrayNames := []
    vertexArrays := [] }

end GLState

/-! ## Graphics library calls -/

/-- The call `glCreateShader(kind)` when the driver hands out `name`. -/
def glCreateShader (kind : ShaderKind) (name : Nat) (s : GLState) : GLState :=
  { s with shaders := s.shaders ++
      [{ name := name, kind := kind, source := Option.none, compiled := false,
         infoLog := [], deleteFlagged := false }] }

def glShaderSource (sh : Nat) (src : String) (s : GLState) : GLState :=
  match s.findShader sh with
  | some _ => s.mapShader sh (fun o => { o with source := some src })
  | Option.none => s.raise (s.notAShader sh)

/-- The call `glCompileShader(sh)`; `ok` and `log` are the driver's verdict. -/
def glCompileShader (ok : Bool) (log : List Nat) (sh : Nat) (s : GLState) : GLState :=
  match s.findShader sh with
  | some _ => s.mapShader sh (fun o => { o with compiled := ok, infoLog := log })
  | Option.none => s.raise (s.notAShader sh)

/-- The call `glGetShaderiv(sh, GL_COMPILE_STATUS, &params)`: the value written to
`params`, or nothing written (and an error raised) when `sh` is not a shader object. -/
def glGetShaderiv (sh : Nat) (s : GLState) : Option Bool × GLState :=
  match s.findShader sh with
  | some o => (some o.compiled, s)
  | Option.none => (Option.none, s.raise (s.notAShader sh))

/-- The call `glGetShaderInfoLog(sh, bufSize, NULL, buf)`: the characters written
to `buf` before the terminating NUL (at most `bufSize - 1` of them), or nothing
written (and an error raised) when `sh` is not a shader object. -/
def glGetShaderInfoLog (sh : Nat) (bufSize : Nat) (s : GLState) : Option (List Nat) × GLState :=
  match s.findShader sh with
  | some o => (if bufSize = 0 then Option.none else some (o.infoLog.take (bufSize - 1)), s)
  | Option.none => (Option.none, s.raise (s.notAShader sh))

/-- The call `glCreateProgram()` when the driver hands out `name`. -/
def glCreateProgram (name : Nat) (s : GLState) : GLState :=
  { s with programs := s.programs ++
      [{ name := name, attached := [], linked := false, infoLog := [], deleteFlagged := false }] }

def glAttachShader (p sh : Nat) (s : GLState) : GLState :=
  match s.findProgram p, s.findShader sh with
  | some o, some _ =>
    if sh ∈ o.attached then s.raise GLError.invalidOperation
    else s.mapProgram p (fun o => { o with attached := o.attached ++ [sh] })
  | some _, Option.none => s.raise (s.notAShader sh)
  | Option.none, _ => s.raise (s.notAProgram p)

/-- The call `glLinkProgram(p)`; `ok` and `log` are the driver's verdict. -/
def glLinkProgram (ok : Bool) (log : List Nat) (p : Nat) (s : GLState) : GLState :=
  match s.findProgram p with
  | some _ => s.mapProgram p (fun o => { o with linked := ok, infoLog := log })
  | Option.none => s.raise (s.notAProgram p)

/-- The call `glDeleteShader(sh)`: a shader still attached to a program is only
flagged for deletion. -/
def glDeleteShader (sh : Nat) (s : GLState) : GLState :=
  if sh = 0 then s
  else match s.findShader sh with
    | some _ =>
      if s.programs.any (fun p => decide (sh ∈ p.attached)) then
        s.mapShader sh (fun o => { o with deleteFlagged := true })
      else { s with shaders := s.shaders.filter (fun o => !(o.name == sh)) }
    | Option.none => s.raise (s.notAShader sh)

/-- The call `glGenVertexArrays(1, &v)` when the driver hands out `name`. -/
def glGenVertexArrays (name : Nat) (s : GLState) : GLState :=
  { s with vertexArrayNames := s.vertexArrayNames ++ [name] }

/-- The call `glGenBuffers(1, &b)` when the driver hands out `name`. -/
def glGenBuffers (name : Nat) (s : GLState) : GLState :=
  { s with bufferNames := s.bufferNames ++ [name] }

/-- The call `glBindVertexArray(n)`: zero unbinds; a generated name is bound, its
object being created on first use; any other name is an error. -/
def glBindVertexArray (n : Nat) (s : GLState) : GLState :=
  if n = 0 then { s with vertexArrayBinding := 0 }
  else if n ∈ s.vertexArrayNames then
    match s.findVertexArray n with
    | some _ => { s with vertexArrayBinding := n }
    | Option.none =>
      { s with vertexArrayBinding := n
               vertexArrays := s.vertexArrays ++
                 [{ name := n, elementArrayBinding := 0, attribs := [] }] }
  else s.raise GLError.invalidOperation

/-- Create the buffer object for a generated name on first use. -/
def ensureBuffer (n : Nat) (s : GLState) : GLState :=
  if n = 0 then s
  else match s.findBuffer n with
    | some _ => s
    | Option.none =>
      { s with buffers := s.buffers ++ [{ name := n, size := 0, data := BufferData.none }] }

/-- The call `glBindBuffer(target, n)`.  The element array binding is stored in
the bound vertex array object. -/
def glBindBuffer (t : BufferTarget) (n : Nat) (s : GLState) : GLState :=
  if n ≠ 0 ∧ n ∉ s.bufferNames then s.raise GLError.invalidOperation
  else match t with
    | BufferTarget.arrayBuffer => ensureBuffer n { s with arrayBufferBinding := n }
    | BufferTarget.elementArrayBuffer =>
      match s.findVertexArray s.vertexArrayBinding with
      | some _ =>
        ensureBuffer n
          (s.mapVertexArray s.vertexArrayBinding (fun v => { v with elementArrayBinding := n }))
      | Option.none => s.raise GLError.invalidOperation

/-- The call `glBufferData(target, size, data, GL_STATIC_DRAW)`. -/
def glBufferData (t : BufferTarget) (size : Nat) (data : BufferData) (s : GLState) : GLState :=
  if s.bufferBinding t = 0 then s.raise GLError.invalidOperation
  else s.mapBuffer (s.bufferBinding t) (fun b => { b with size := size, data := data })

/-- The call `glVertexAttribPointer(index, size, GL_FLOAT, normalized, stride, offset)`:
records the layout together with the buffer currently bound to the array target. -/
def glVertexAttribPointer (index size : Nat) (normalized : Bool) (stride offset : Nat)
    (s : GLState) : GLState :=
  match s.findVertexArray s.vertexArrayBinding with
  | Option.none => s.raise GLError.invalidOperation
  | some v =>
    if size = 0 ∨ 4 < size then s.raise GLError.invalidValue
    else if s.arrayBufferBinding = 0 ∧ offset ≠ 0 then s.raise GLError.invalidOperation
    else s.mapVertexArray s.vertexArrayBinding (fun v0 =>
      v0.setAttrib index
        { enabled := (v.attrib index).enabled, size := size, normalized := normalized,
          stride := stride, offset := offset, buffer := s.arrayBufferBinding })

def glEnableVertexAttribArray (index : Nat) (s : GLState) : GLState :=
  match s.findVertexArray s.vertexArrayBinding with
  | Option.none => s.raise GLError.invalidOperation
  | some _ => s.mapVertexArray s.vertexArrayBinding (fun v0 =>
      v0.setAttrib index { v0.attrib index with enabled := true })

/-- The call `glViewport(x, y, w, h)`: a negative size is an error and leaves the
viewport alone; sizes are clamped to the implementation's maximum. -/
def glViewport (x y w h : Int) (s : GLState) : GLState :=
  if w < 0 ∨ h < 0 then s.raise GLError.invalidValue
  else { s with viewport :=
    { x := x, y := y, width := min w s.maxViewportWidth, height := min h s.maxViewportHeight } }

def glClearColor (r g b a : FloatLit) (s : GLState) : GLState :=
  { s with clearColor := [r, g, b, a] }

/-- The call `glClear(GL_COLOR_BUFFER_BIT)`; pixel contents are not part of the state. -/
def glClear (s : GLState) : GLState := s

/-- The call `glUseProgram(p)`: only a successfully linked program becomes current. -/
def glUseProgram (p : Nat) (s : GLState) : GLState :=
  if p = 0 then { s with currentProgram := 0 }
  else match s.findProgram p with
    | some o => if o.linked then { s with currentProgram := p } else s.raise GLError.invalidOperation
    | Option.none => s.raise (s.notAProgram p)

/-- The call `glDrawElements(GL_TRIANGLES, count, GL_UNSIGNED_INT, offset)`; pixel
contents are not part of the state, drawing without a vertex array is an error. -/
def glDrawElements (_count _offset : Nat) (s : GLState) : GLState :=
  match s.findVertexArray s.vertexArrayBinding with
  | some _ => s
  | Option.none => s.raise GLError.invalidOperation

def glDeleteVertexArrays (n : Nat) (s : GLState) : GLState :=
  { s with vertexArrayBinding := if s.vertexArrayBinding = n then 0 else s.vertexArrayBinding
           vertexArrayNames := s.vertexArrayNames.filter (fun m => !(m == n))
           vertexArrays := s.vertexArrays.filter (fun v => !(v.name == n)) }

/-- The call `glDeleteBuffers(1, &n)`: the object goes away and every binding of it
in the current context (and in the bound vertex array object) reverts to zero. -/
def glDeleteBuffers (n : Nat) (s : GLState) : GLState :=
  if n = 0 then s
  else
    let s1 := s.mapVertexArray s.vertexArrayBinding (fun v =>
      { v with elementArrayBinding := if v.elementArrayBinding = n then 0 else v.elementArrayBinding
               attribs := v.attribs.map (fun e =>
                 (e.1, { e.2 with buffer := if e.2.buffer = n then 0 else e.2.buffer })) })
    { s1 with arrayBufferBinding := if s.arrayBufferBinding = n then 0 else s.arrayBufferBinding
              bufferNames := s.bufferNames.filter (fun m => !(m == n))
              buffers := s.buffers.filter (fun b => !(b.name == n)) }

/-- The call `glDeleteProgram(p)`: the current program is only flagged for deletion. -/
def glDeleteProgram (p : Nat) (s : GLState) : GLState :=
  if p = 0 then s
  else match s.findProgram p with
    | some o =>
      if s.currentProgram = p then s.mapProgram p (fun o => { o with deleteFlagged := true })
      else
        { s with programs := s.programs.filter (fun q => !(q.name == p))
                 shaders := s.shaders.filter (fun sh =>
                   !(sh.deleteFlagged && decide (sh.name ∈ o.attached))) }
    | Option.none => s.raise (s.notAProgram p)

/-! ## The program's world -/

/-- Which diagnostic a console line carries. -/
inductive DiagTag
  | vertex
  | fragment
  | program
  deriving DecidableEq, Repr

/-- One line group written to standard output. -/
inductive ConsoleLine
  | failedWindow
  | failedGlad
  | diag (tag : DiagTag) (infoLog : List Nat)
  deriving DecidableEq, Repr

/-- Fixed text that precedes the info log in a diagnostic. -/
def DiagTag.text : DiagTag → String
  | DiagTag.vertex => "ERROR::SHADER::VERTEX::COMPILATION_FAILED\n"
  | DiagTag.fragment => "ERROR::SHADER::FRAGMENT::COMPILATION_FAILED\n"
  | DiagTag.program => "ERROR::SHADER::PROGRAM::COMPILATION_FAILED\n"

/-- Fixed text of a console line. -/
def ConsoleLine.text : ConsoleLine → String
  | ConsoleLine.failedWindow => "Failed to create GLFW Window"
  | ConsoleLine.failedGlad => "Failed to initialize GLAD"
  | ConsoleLine.diag tag _ => tag.text

inductive WindowHint
  | contextVersionMajor
  | contextVersionMinor
  | openglProfile
  deriving DecidableEq, Repr

inductive HintValue
  | num (n : Nat)
  | openglCoreProfile
  deriving DecidableEq, Repr

/-- A call into the windowing or graphics library, with the arguments that matter. -/
inductive Call
  | glfwInit
  | glfwWindowHint (hint : WindowHint) (value : HintValue)
  | glfwCreateWindow (width height : Nat) (title : String)
  | glfwTerminate
  | glfwMakeContextCurrent
  | glfwSetFramebufferSizeCallback
  | gladLoadGLLoader
  | glfwWindowShouldClose
  | glfwGetKeyEscape
  | glfwSetWindowShouldClose (value : Bool)
  | glfwSwapBuffers
  | glfwPollEvents
  | glViewport (x y width height : Int)
  | glClearColor (r g b a : FloatLit)
  | glClear
  | glUseProgram (p : Nat)
  | glBindVertexArray (n : Nat)
  | glDrawElements (count offset : Nat)
  | glCreateShader (kind : ShaderKind) (name : Nat)
  | glShaderSource (sh : Nat) (src : String)
  | glCompileShader (sh : Nat)
  | glGetShaderiv (sh : Nat)
  | glGetShaderInfoLog (sh bufSize : Nat)
  | glCreateProgram (name : Nat)
  | glAttachShader (p sh : Nat)
  | glLinkProgram (p : Nat)
  | glDeleteShader (sh : Nat)
  | glGenVertexArrays (name : Nat)
  | glGenBuffers (name : Nat)
  | glBindBuffer (t : BufferTarget) (n : Nat)
  | glBufferData (t : BufferTarget) (size : Nat) (data : BufferData)
  | glVertexAttribPointer (index size : Nat) (normalized : Bool) (stride offset : Nat)
  | glEnableVertexAttribArray (index : Nat)
  | glDeleteVertexArrays (n : Nat)
  | glDeleteBuffers (n : Nat)
  | glDeleteProgram (p : Nat)
  deriving DecidableEq, Repr

/-- Calls that only read library state (an argument error still sets the error flag). -/
def Call.isQuery : Call → Bool
  | Call.glfwWindowShouldClose => true
  | Call.glfwGetKeyEscape => true
  | Call.glGetShaderiv _ => true
  | Call.glGetShaderInfoLog _ _ => true
  | _ => false

/-- What the window system delivers around one pass of the render loop. -/
structure FrameInput where
  /-- Whether `glfwGetKey(window, GLFW_KEY_ESCAPE)` reports `GLFW_PRESS` in `processInput`. -/
  escapePressed : Bool
  /-- Whether a close request is delivered during `glfwPollEvents`. -/
  closeRequested : Bool
  /-- Framebuffer size events delivered during `glfwPollEvents`, in order. -/
  resizes : List (Int × Int)
  deriving DecidableEq, Repr

/-- Everything the surroundings of the program decide. -/
structure Platform where
  /-- Whether `glfwCreateWindow` returns a window (rather than `NULL`). -/
  windowCreated : Bool
  /-- Whether `gladLoadGLLoader` succeeds. -/
  loaderOk : Bool
  vertexShaderName : Nat
  fragmentShaderName : Nat
  programName : Nat
  vaoName : Nat
  vboName : Nat
  eboName : Nat
  vertexCompiles : Bool
  fragmentCompiles : Bool
  links : Bool
  vertexLog : List Nat
  fragmentLog : List Nat
  programLog : List Nat
  maxViewportWidth : Int
  maxViewportHeight : Int
  /-- Indeterminate initial content of the local `success`. -/
  stackSuccess : Bool
  /-- Indeterminate initial content of the local `infoLog`, up to its first NUL. -/
  stackInfoLog : List Nat
  /-- Input of the n-th pass of the render loop. -/
  frames : Nat → FrameInput

/-- What the graphics library guarantees about the names it hands out: they are
non-zero, shader and program names are pairwise different (one name space), and
so are the two buffer names. -/
def Platform.FreshNames (p : Platform) : Prop :=
  p.vertexShaderName ≠ 0 ∧ p.fragmentShaderName ≠ 0 ∧ p.programName ≠ 0 ∧
  p.vaoName ≠ 0 ∧ p.vboName ≠ 0 ∧ p.eboName ≠ 0 ∧
  p.vertexShaderName ≠ p.fragmentShaderName ∧ p.programName ≠ p.vertexShaderName ∧
  p.programName ≠ p.fragmentShaderName ∧ p.vboName ≠ p.eboName

instance (p : Platform) : Decidable p.FreshNames := by
  unfold Platform.FreshNames; infer_instance

/-- Window width of the source. -/
def SCR_WIDTH : Nat := 800

/-- Window height of the source. -/
def SCR_HEIGHT : Nat := 600

/-- Text of the vertex shader, up to its first NUL. -/
def vertexShaderSource : String :=
  "#version 330 core\nlayout (location = 0) in vec3 aPos;\nvoid main()\n\x7b\n   gl_Position = vec4(aPos.x, aPos.y, aPos.z, 1.0);\n\x7d"

/-- Text of the fragment shader, up to its first NUL. -/
def fragmentShaderSource : String :=
  "#version 330 core\nout vec4 FragColor;\nvoid main()\n\x7b\n   FragColor = vec4(1.0f, 0.5f, 0.2f, 1.0f);\n\x7d\n"

/-- The program state: the graphics context, the close flag of the one window,
the six global handle variables, standard output, and the calls made so far. -/
structure World where
  gl : GLState
  shouldClose : Bool
  VBO : Nat
  VAO : Nat
  vertexShader : Nat
  fragmentShader : Nat
  shaderProgram : Nat
  EBO : Nat
  console : List ConsoleLine
  trace : List Call
  deriving DecidableEq, Repr

/-- State at program start: globals are zero-initialised, nothing printed or called.
The graphics state is that of the context `glfwCreateWindow` will create. -/
def World.initial (p : Platform) : World :=
  { gl := GLState.initial SCR_WIDTH SCR_HEIGHT p.maxViewportWidth p.maxViewportHeight
    shouldClose := false
    VBO := 0, VAO := 0, vertexShader := 0, fragmentShader := 0, shaderProgram := 0, EBO := 0
    console := []
    trace := [] }

/-- Make a graphics call: apply its effect and record it. -/
def World.call (c : Call) (f : GLState → GLState) (w : World) : World :=
  { w with gl := f w.gl, trace := w.trace ++ [c] }

/-- Record a call that leaves the graphics state alone. -/
def World.note (c : Call) (w : World) : World :=
  { w with trace := w.trace ++ [c] }

/-- Write to standard output. -/
def World.print (l : ConsoleLine) (w : World) : World :=
  { w with console := w.console ++ [l] }

/-! ## The program -/

/-- The locals `success` and `infoLog` of `createShaderProgram`. -/
structure Locals where
  success : Bool
  infoLog : List Nat
  deriving DecidableEq, Repr

/-- The array `vertices` of `createShaderProgram`. -/
def vertices : List FloatLit :=
  [⟨5, 10⟩, ⟨5, 10⟩, ⟨0, 10⟩,
   ⟨5, 10⟩, ⟨-5, 10⟩, ⟨0, 10⟩,
   ⟨-5, 10⟩, ⟨-5, 10⟩, ⟨0, 10⟩,
   ⟨10, 10⟩, ⟨-5, 10⟩, ⟨0, 10⟩]

/-- The array `indices` of `createShaderProgram`. -/
def indices : List Nat :=
  [0, 1, 3,
   1, 2, 3]

/-- The block the source writes three times, for `vertexShader`, `fragmentShader`
and `shaderProgram`:
`glGetShaderiv(h, GL_COMPILE_STATUS, &success);
 if (!success) { glGetShaderInfoLog(h, 512, NULL, infoLog); cout << tag << infoLog << endl; }`.
A query that fails leaves its output variable as it was. -/
def statusCheck (h : Nat) (tag : DiagTag) (st : Locals × World) : Locals × World :=
  let r := glGetShaderiv h st.2.gl
  let l1 : Locals := { st.1 with success := r.1.getD st.1.success }
  let w1 : World := { st.2 with gl := r.2, trace := st.2.trace ++ [Call.glGetShaderiv h] }
  if !l1.success then
    let q := glGetShaderInfoLog h 512 w1.gl
    let l2 : Locals := { l1 with infoLog := q.1.getD l1.infoLog }
    let w2 : World := { w1 with gl := q.2, trace := w1.trace ++ [Call.glGetShaderInfoLog h 512] }
    (l2, w2.print (ConsoleLine.diag tag l2.infoLog))
  else (l1, w1)

/-- Lines 147-158: create, source, compile and check the vertex shader. -/
def compileVertex (p : Platform) (st : Locals × World) : Locals × World :=
  let w := { st.2 with vertexShader := p.vertexShaderName }
  let w := w.call (Call.glCreateShader ShaderKind.vertex p.vertexShaderName)
    (glCreateShader ShaderKind.vertex p.vertexShaderName)
  let w := w.call (Call.glShaderSource w.vertexShader vertexShaderSource)
    (glShaderSource w.vertexShader vertexShaderSource)
  let w := w.call (Call.glCompileShader w.vertexShader)
    (glCompileShader p.vertexCompiles p.vertexLog w.vertexShader)
  statusCheck w.vertexShader DiagTag.vertex (st.1, w)

/-- Lines 160-171: create, source, compile and check the fragment shader. -/
def compileFragment (p : Platform) (st : Locals × World) : Locals × World :=
  let w := { st.2 with fragmentShader := p.fragmentShaderName }
  let w := w.call (Call.glCreateShader ShaderKind.fragment p.fragmentShaderName)
    (glCreateShader ShaderKind.fragment p.fragmentShaderName)
  let w := w.call (Call.glShaderSource w.fragmentShader fragmentShaderSource)
    (glShaderSource w.fragmentShader fragmentShaderSource)
  let w := w.call (Call.glCompileShader w.fragmentShader)
    (glCompileShader p.fragmentCompiles p.fragmentLog w.fragmentShader)
  statusCheck w.fragmentShader DiagTag.fragment (st.1, w)

/-- Lines 173-185: create the program, attach both shaders, link, and check. -/
def linkProgram (p : Platform) (st : Locals × World) : Locals × World :=
  let w := { st.2 with shaderProgram := p.programName }
  let w := w.call (Call.glCreateProgram p.programName) (glCreateProgram p.programName)
  let w := w.call (Call.glAttachShader w.shaderProgram w.vertexShader)
    (glAttachShader w.shaderProgram w.vertexShader)
  let w := w.call (Call.glAttachShader w.shaderProgram w.fragmentShader)
    (glAttachShader w.shaderProgram w.fragmentShader)
  let w := w.call (Call.glLinkProgram w.shaderProgram)
    (glLinkProgram p.links p.programLog w.shaderProgram)
  statusCheck w.shaderProgram DiagTag.program (st.1, w)

/-- Lines 187-189: delete both shader objects. -/
def deleteShaders (w : World) : World :=
  let w := w.call (Call.glDeleteShader w.vertexShader) (glDeleteShader w.vertexShader)
  w.call (Call.glDeleteShader w.fragmentShader) (glDeleteShader w.fragmentShader)

/-- Lines 191-205: generate the three objects, bind, upload the mesh, describe and
enable attribute 0. -/
def uploadBound (p : Platform) (w : World) : World :=
  let w := ({ w with VAO := p.vaoName }).call (Call.glGenVertexArrays p.vaoName)
    (glGenVertexArrays p.vaoName)
  let w := ({ w with VBO := p.vboName }).call (Call.glGenBuffers p.vboName)
    (glGenBuffers p.vboName)
  let w := ({ w with EBO := p.eboName }).call (Call.glGenBuffers p.eboName)
    (glGenBuffers p.eboName)
  let w := w.call (Call.glBindVertexArray w.VAO) (glBindVertexArray w.VAO)
  let w := w.call (Call.glBindBuffer BufferTarget.arrayBuffer w.VBO)
    (glBindBuffer BufferTarget.arrayBuffer w.VBO)
  let w := w.call
    (Call.glBufferData BufferTarget.arrayBuffer (vertices.length * sizeofFloat)
      (BufferData.floats vertices))
    (glBufferData BufferTarget.arrayBuffer (vertices.length * sizeofFloat)
      (BufferData.floats vertices))
  let w := w.call (Call.glBindBuffer BufferTarget.elementArrayBuffer w.EBO)
    (glBindBuffer BufferTarget.elementArrayBuffer w.EBO)
  let w := w.call
    (Call.glBufferData BufferTarget.elementArrayBuffer (indices.length * sizeofUInt)
      (BufferData.uints indices))
    (glBufferData BufferTarget.elementArrayBuffer (indices.length * sizeofUInt)
      (BufferData.uints indices))
  let w := w.call (Call.glVertexAttribPointer 0 3 false (3 * sizeofFloat) 0)
    (glVertexAttribPointer 0 3 false (3 * sizeofFloat) 0)
  w.call (Call.glEnableVertexAttribArray 0) (glEnableVertexAttribArray 0)

/-- Lines 207-212: unbind the vertex buffer, then the vertex array. -/
def unbindAfterUpload (w : World) : World :=
  let w := w.call (Call.glBindBuffer BufferTarget.arrayBuffer 0)
    (glBindBuffer BufferTarget.arrayBuffer 0)
  w.call (Call.glBindVertexArray 0) (glBindVertexArray 0)

/-- Lines 191-212. -/
def uploadGeometry (p : Platform) (w : World) : World :=
  unbindAfterUpload (uploadBound p w)

/-- The function `createShaderProgram`. -/
def createShaderProgram (p : Platform) (w : World) : World :=
  let st : Locals × World := ({ success := p.stackSuccess, infoLog := p.stackInfoLog }, w)
  let st := compileVertex p st
  let st := compileFragment p st
  let st := linkProgram p st
  let w := deleteShaders st.2
  uploadGeometry p w

/-- The function `framebuffer_size_callback` (there is one window, so the window
argument is left out). -/
def framebuffer_size_callback (width height : Int) (w : World) : World :=
  w.call (Call.glViewport 0 0 width height) (glViewport 0 0 width height)

/-- The function `processInput`; `escapePressed` is what `glfwGetKey` reports. -/
def processInput (escapePressed : Bool) (w : World) : World :=
  let w := w.note Call.glfwGetKeyEscape
  if escapePressed then
    { w.note (Call.glfwSetWindowShouldClose true) with shouldClose := true }
  else w

/-- The call `glfwPollEvents()`: size events run the registered callback, a close
request sets the close flag. -/
def glfwPollEvents (i : FrameInput) (w : World) : World :=
  let w := w.note Call.glfwPollEvents
  let w := i.resizes.foldl (fun w e => framebuffer_size_callback e.1 e.2 w) w
  if i.closeRequested then { w with shouldClose := true } else w

/-- Lines 70-81 of the loop body: input, clear, select program and vertex array. -/
def prepareDraw (i : FrameInput) (w : World) : World :=
  let w := processInput i.escapePressed w
  let w := w.call (Call.glClearColor ⟨2, 10⟩ ⟨3, 10⟩ ⟨3, 10⟩ ⟨10, 10⟩)
    (glClearColor ⟨2, 10⟩ ⟨3, 10⟩ ⟨3, 10⟩ ⟨10, 10⟩)
  let w := w.call Call.glClear glClear
  let w := w.call (Call.glUseProgram w.shaderProgram) (glUseProgram w.shaderProgram)
  w.call (Call.glBindVertexArray w.VAO) (glBindVertexArray w.VAO)

/-- Body of the render loop (lines 70-87). -/
def renderFrame (i : FrameInput) (w : World) : World :=
  let w := prepareDraw i w
  let w := w.call (Call.glDrawElements 6 0) (glDrawElements 6 0)
  let w := w.note Call.glfwSwapBuffers
  glfwPollEvents i w

/-- The loop `while (!glfwWindowShouldClose(window)) body`, started at pass `n`.
`none` means the fuel ran out before the close flag was seen. -/
def renderLoop (p : Platform) : Nat → Nat → World → Option World
  | 0, _, _ => Option.none
  | fuel + 1, n, w =>
    let w := w.note Call.glfwWindowShouldClose
    if w.shouldClose then some w else renderLoop p fuel (n + 1) (renderFrame (p.frames n) w)

/-- Result of a terminating run of `main`. -/
structure Outcome where
  exitCode : Int
  world : World
  deriving DecidableEq, Repr

/-- Lines 41-45 and the call of `glfwCreateWindow`. -/
def startup (p : Platform) : World :=
  let w := (World.initial p).note Call.glfwInit
  let w := w.note (Call.glfwWindowHint WindowHint.contextVersionMajor (HintValue.num 3))
  let w := w.note (Call.glfwWindowHint WindowHint.contextVersionMinor (HintValue.num 3))
  let w := w.note (Call.glfwWindowHint WindowHint.openglProfile HintValue.openglCoreProfile)
  w.note (Call.glfwCreateWindow SCR_WIDTH SCR_HEIGHT "First Window")

/-- Lines 90-97: release the four objects, then shut the window system down. -/
def teardown (w : World) : World :=
  let w := w.call (Call.glDeleteVertexArrays w.VAO) (glDeleteVertexArrays w.VAO)
  let w := w.call (Call.glDeleteBuffers w.VBO) (glDeleteBuffers w.VBO)
  let w := w.call (Call.glDeleteBuffers w.EBO) (glDeleteBuffers w.EBO)
  let w := w.call (Call.glDeleteProgram w.shaderProgram) (glDeleteProgram w.shaderProgram)
  w.note Call.glfwTerminate

/-- The function `main`.  `none` means the render loop was still running when
the fuel ran out. -/
def main (p : Platform) (fuel : Nat) : Option Outcome :=
  let w := startup p
  if !p.windowCreated then
    let w := w.print ConsoleLine.failedWindow
    let w := w.note Call.glfwTerminate
    some { exitCode := -1, world := w }
  else
    let w := w.note Call.glfwMakeContextCurrent
    let w := w.note Call.glfwSetFramebufferSizeCallback
    let w := w.note Call.gladLoadGLLoader
    if !p.loaderOk then
      some { exitCode := -1, world := w.print ConsoleLine.failedGlad }
    else
      let w := createShaderProgram p w
      match renderLoop p fuel 0 w with
      | Option.none => Option.none
      | some w => some { exitCode := 0, world := teardown w }

/-! ## The render loop as a step relation -/

/-- Control points of the render loop: the loop test, the eight statements of the
body, and the point after the loop. -/
inductive LoopPc
  | head
  | input
  | clearColor
  | clear
  | useProgram
  | bindVertexArray
  | draw
  | swap
  | poll
  | closing
  deriving DecidableEq, Repr

inductive Phase
  | Running
  | Closing
  deriving DecidableEq, Repr

structure LoopState where
  pc : LoopPc
  /-- Number of completed passes. -/
  pass : Nat
  world : World
  deriving DecidableEq, Repr

def LoopState.phase (st : LoopState) : Phase :=
  if st.pc = LoopPc.closing then Phase.Closing else Phase.Running

/-- One statement of the render loop. -/
def loopStep (p : Platform) (st : LoopState) : LoopState :=
  match st.pc with
  | LoopPc.head =>
    let w := st.world.note Call.glfwWindowShouldClose
    if w.shouldClose then { st with pc := LoopPc.closing, world := w }
    else { st with pc := LoopPc.input, world := w }
  | LoopPc.input =>
    { st with pc := LoopPc.clearColor
              world := processInput (p.frames st.pass).escapePressed st.world }
  | LoopPc.clearColor =>
    { st with pc := LoopPc.clear
              world := st.world.call (Call.glClearColor ⟨2, 10⟩ ⟨3, 10⟩ ⟨3, 10⟩ ⟨10, 10⟩)
                (glClearColor ⟨2, 10⟩ ⟨3, 10⟩ ⟨3, 10⟩ ⟨10, 10⟩) }
  | LoopPc.clear =>
    { st with pc := LoopPc.useProgram, world := st.world.call Call.glClear glClear }
  | LoopPc.useProgram =>
    { st with pc := LoopPc.bindVertexArray
              world := st.world.call (Call.glUseProgram st.world.shaderProgram)
                (glUseProgram st.world.shaderProgram) }
  | LoopPc.bindVertexArray =>
    { st with pc := LoopPc.draw
              world := st.world.call (Call.glBindVertexArray st.world.VAO)
                (glBindVertexArray st.world.VAO) }
  | LoopPc.draw =>
    { st with pc := LoopPc.swap
              world := st.world.call (Call.glDrawElements 6 0) (glDrawElements 6 0) }
  | LoopPc.swap =>
    { st with pc := LoopPc.poll, world := st.world.note Call.glfwSwapBuffers }
  | LoopPc.poll =>
    { pc := LoopPc.head, pass := st.pass + 1
      world := glfwPollEvents (p.frames st.pass) st.world }
  | LoopPc.closing => st

/-- Run `k` statements. -/
def loopRun (p : Platform) : Nat → LoopState → LoopState
  | 0, st => st
  | k + 1, st => loopRun p k (loopStep p st)

/-- Number of `glClear` calls in a trace. -/
def clears (t : List Call) : Nat := t.count Call.glClear

/-- Number of draw calls in a trace. -/
def draws (t : List Call) : Nat := t.count (Call.glDrawElements 6 0)

/-- Number of buffer swaps in a trace. -/
def swaps (t : List Call) : Nat := t.count Call.glfwSwapBuffers

/-- How many clears, draws and swaps the current pass still has to make at a
control point when the close flag is already set. -/
def remaining : LoopPc → Nat × Nat × Nat
  | LoopPc.head => (0, 0, 0)
  | LoopPc.input => (1, 1, 1)
  | LoopPc.clearColor => (1, 1, 1)
  | LoopPc.clear => (1, 1, 1)
  | LoopPc.useProgram => (0, 1, 1)
  | LoopPc.bindVertexArray => (0, 1, 1)
  | LoopPc.draw => (0, 1, 1)
  | LoopPc.swap => (0, 0, 1)
  | LoopPc.poll => (0, 0, 0)
  | LoopPc.closing => (0, 0, 0)

/-- Number of statements from a control point to the point after the loop, once
the close flag is set. -/
def stepsToClose : LoopPc → Nat
  | LoopPc.head => 1
  | LoopPc.input => 9
  | LoopPc.clearColor => 8
  | LoopPc.clear => 7
  | LoopPc.useProgram => 6
  | LoopPc.bindVertexArray => 5
  | LoopPc.draw => 4
  | LoopPc.swap => 3
  | LoopPc.poll => 2
  | LoopPc.closing => 0

/-- World after `k` passes of the loop body starting with pass `n`, whatever the
close flag says. -/
def afterPasses (p : Platform) : Nat → Nat → World → World
  | 0, _, w => w
  | k + 1, n, w => afterPasses p k (n + 1) (renderFrame (p.frames n) w)

/-- Whether the loop started at pass `n` with close flag `flag` ends within `fuel`
loop tests, computed from the window-system input alone. -/
def closesWithin (frames : Nat → FrameInput) : Nat → Nat → Bool → Bool
  | 0, _, _ => false
  | fuel + 1, n, flag =>
    if flag then true
    else closesWithin frames fuel (n + 1) ((frames n).escapePressed || (frames n).closeRequested)

/-! ## Derived notions used in the statements -/

/-- The six global handle variables. -/
def World.handles (w : World) : List Nat :=
  [w.VBO, w.VAO, w.vertexShader, w.fragmentShader, w.shaderProgram, w.EBO]

/-- Calls that create or release one of the four long-lived objects. -/
def Call.isLifecycle : Call → Bool
  | Call.glCreateProgram _ => true
  | Call.glGenVertexArrays _ => true
  | Call.glGenBuffers _ => true
  | Call.glDeleteVertexArrays _ => true
  | Call.glDeleteBuffers _ => true
  | Call.glDeleteProgram _ => true
  | _ => false

/-- Calls that upload a buffer's data store. -/
def Call.isUpload : Call → Bool
  | Call.glBufferData _ _ _ => true
  | _ => false

/-- The state-changing graphics calls of `createShaderProgram`, in order. -/
def setupCalls (p : Platform) : List Call :=
  [ Call.glCreateShader ShaderKind.vertex p.vertexShaderName,
    Call.glShaderSource p.vertexShaderName vertexShaderSource,
    Call.glCompileShader p.vertexShaderName,
    Call.glCreateShader ShaderKind.fragment p.fragmentShaderName,
    Call.glShaderSource p.fragmentShaderName fragmentShaderSource,
    Call.glCompileShader p.fragmentShaderName,
    Call.glCreateProgram p.programName,
    Call.glAttachShader p.programName p.vertexShaderName,
    Call.glAttachShader p.programName p.fragmentShaderName,
    Call.glLinkProgram p.programName,
    Call.glDeleteShader p.vertexShaderName,
    Call.glDeleteShader p.fragmentShaderName,
    Call.glGenVertexArrays p.vaoName,
    Call.glGenBuffers p.vboName,
    Call.glGenBuffers p.eboName,
    Call.glBindVertexArray p.vaoName,
    Call.glBindBuffer BufferTarget.arrayBuffer p.vboName,
    Call.glBufferData BufferTarget.arrayBuffer 48 (BufferData.floats vertices),
    Call.glBindBuffer BufferTarget.elementArrayBuffer p.eboName,
    Call.glBufferData BufferTarget.elementArrayBuffer 24 (BufferData.uints indices),
    Call.glVertexAttribPointer 0 3 false 12 0,
    Call.glEnableVertexAttribArray 0,
    Call.glBindBuffer BufferTarget.arrayBuffer 0,
    Call.glBindVertexArray 0 ]

/-- Console lines `createShaderProgram` writes on a fresh context: the local
`success` holds the fragment shader's compile status when the third check reads it,
and `infoLog` still holds the fragment shader's log. -/
def diagnostics (p : Platform) : List ConsoleLine :=
  (if p.vertexCompiles then [] else [ConsoleLine.diag DiagTag.vertex (p.vertexLog.take 511)]) ++
  (if p.fragmentCompiles then []
   else [ConsoleLine.diag DiagTag.fragment (p.fragmentLog.take 511),
         ConsoleLine.diag DiagTag.program (p.fragmentLog.take 511)])

/-- A context in which no object has been created and no error has occurred. -/
def GLState.Fresh (g : GLState) : Prop :=
  g.error = GLError.noError ∧ g.shaders = [] ∧ g.programs = [] ∧ g.bufferNames = [] ∧
  g.buffers = [] ∧ g.vertexArrayNames = [] ∧ g.vertexArrays = []

instance (g : GLState) : Decidable g.Fresh := by
  unfold GLState.Fresh; infer_instance

/-- The vertex shader object once compiled; `flag` is its flagged-for-deletion bit. -/
def vertexObj (p : Platform) (flag : Bool) : ShaderObj :=
  { name := p.vertexShaderName, kind := ShaderKind.vertex, source := some vertexShaderSource,
    compiled := p.vertexCompiles, infoLog := p.vertexLog, deleteFlagged := flag }

/-- The fragment shader object once compiled. -/
def fragmentObj (p : Platform) (flag : Bool) : ShaderObj :=
  { name := p.fragmentShaderName, kind := ShaderKind.fragment,
    source := some fragmentShaderSource, compiled := p.fragmentCompiles,
    infoLog := p.fragmentLog, deleteFlagged := flag }

/-- The program object once linked. -/
def programObj (p : Platform) : ProgramObj :=
  { name := p.programName, attached := [p.vertexShaderName, p.fragmentShaderName],
    linked := p.links, infoLog := p.programLog, deleteFlagged := false }

/-- The two buffer objects after the upload. -/
def uploadedBuffers (p : Platform) : List BufferObj :=
  [{ name := p.vboName, size := 48, data := BufferData.floats vertices },
   { name := p.eboName, size := 24, data := BufferData.uints indices }]

/-- The vertex array object after the upload. -/
def describedArray (p : Platform) : VertexArrayObj :=
  { name := p.vaoName, elementArrayBinding := p.eboName
    attribs := [(0, { enabled := true, size := 3, normalized := false, stride := 12,
                      offset := 0, buffer := p.vboName })] }

/-- Graphics state `createShaderProgram` leaves behind on a fresh context: the
error flag is set by the status query made on the program name. -/
def setupState (p : Platform) (g : GLState) : GLState :=
  { g with
    error := GLError.invalidOperation
    arrayBufferBinding := 0
    vertexArrayBinding := 0
    shaders := [vertexObj p true, fragmentObj p true]
    programs := [programObj p]
    bufferNames := [p.vboName, p.eboName]
    buffers := uploadedBuffers p
    vertexArrayNames := [p.vaoName]
    vertexArrays := [describedArray p] }

/-- All calls `createShaderProgram` makes on a fresh context, queries included. -/
def setupTrace (p : Platform) : List Call :=
  [ Call.glCreateShader ShaderKind.vertex p.vertexShaderName,
    Call.glShaderSource p.vertexShaderName vertexShaderSource,
    Call.glCompileShader p.vertexShaderName,
    Call.glGetShaderiv p.vertexShaderName ] ++
  (if p.vertexCompiles then [] else [Call.glGetShaderInfoLog p.vertexShaderName 512]) ++
  [ Call.glCreateShader ShaderKind.fragment p.fragmentShaderName,
    Call.glShaderSource p.fragmentShaderName fragmentShaderSource,
    Call.glCompileShader p.fragmentShaderName,
    Call.glGetShaderiv p.fragmentShaderName ] ++
  (if p.fragmentCompiles then [] else [Call.glGetShaderInfoLog p.fragmentShaderName 512]) ++
  [ Call.glCreateProgram p.programName,
    Call.glAttachShader p.programName p.vertexShaderName,
    Call.glAttachShader p.programName p.fragmentShaderName,
    Call.glLinkProgram p.programName,
    Call.glGetShaderiv p.programName ] ++
  (if p.fragmentCompiles then [] else [Call.glGetShaderInfoLog p.programName 512]) ++
  [ Call.glDeleteShader p.vertexShaderName,
    Call.glDeleteShader p.fragmentShaderName,
    Call.glGenVertexArrays p.vaoName,
    Call.glGenBuffers p.vboName,
    Call.glGenBuffers p.eboName,
    Call.glBindVertexArray p.vaoName,
    Call.glBindBuffer BufferTarget.arrayBuffer p.vboName,
    Call.glBufferData BufferTarget.arrayBuffer 48 (BufferData.floats vertices),
    Call.glBindBuffer BufferTarget.elementArrayBuffer p.eboName,
    Call.glBufferData BufferTarget.elementArrayBuffer 24 (BufferData.uints indices),
    Call.glVertexAttribPointer 0 3 false 12 0,
    Call.glEnableVertexAttribArray 0,
    Call.glBindBuffer BufferTarget.arrayBuffer 0,
    Call.glBindVertexArray 0 ]

/-- The world `createShaderProgram` leaves behind on a fresh context. -/
def setupWorld (p : Platform) (w : World) : World :=
  { w with gl := setupState p w.gl
           VBO := p.vboName, VAO := p.vaoName
           vertexShader := p.vertexShaderName, fragmentShader := p.fragmentShaderName
           shaderProgram := p.programName, EBO := p.eboName
           console := w.console ++ diagnostics p
           trace := w.trace ++ setupTrace p }

/-- The world `main` hands to `createShaderProgram`. -/
def beforeSetup (p : Platform) : World :=
  (((startup p).note Call.glfwMakeContextCurrent).note
    Call.glfwSetFramebufferSizeCallback).note Call.gladLoadGLLoader

/-- The indices a draw of `count` elements starting at byte `offset` fetches from
an index store. -/
def fetchedIndices (data : BufferData) (count offset : Nat) : List Nat :=
  match data with
  | BufferData.uints xs => (xs.drop (offset / sizeofUInt)).take count
  | _ => []

/-- Whether every byte `glDrawElements(GL_TRIANGLES, count, GL_UNSIGNED_INT, offset)`
reads lies inside a data store: the index bytes inside the element buffer of the
bound vertex array, and for each fetched index the bytes of every enabled attribute
inside that attribute's buffer. -/
def drawElementsInBounds (s : GLState) (count offset : Nat) : Bool :=
  match s.findVertexArray s.vertexArrayBinding with
  | Option.none => false
  | some v =>
    match s.findBuffer v.elementArrayBinding with
    | Option.none => false
    | some eb =>
      decide (offset + count * sizeofUInt ≤ eb.size) &&
      v.attribs.all (fun e =>
        !e.2.enabled ||
        (match s.findBuffer e.2.buffer with
         | Option.none => false
         | some vb =>
           (fetchedIndices eb.data count offset).all (fun i =>
             decide (e.2.offset +
               i * (if e.2.stride = 0 then e.2.size * sizeofFloat else e.2.stride) +
               e.2.size * sizeofFloat ≤ vb.size))))

/-- The k-th index triple of the index array. -/
def triangle (k : Nat) : List Nat := (indices.drop (3 * k)).take 3

/-- Coordinates of vertex `k` of the vertex array, as rationals. -/
def vertexPos (k : Nat) : ℚ × ℚ × ℚ :=
  ((vertices.getD (3 * k) ⟨0, 1⟩).toRat, (vertices.getD (3 * k + 1) ⟨0, 1⟩).toRat,
   (vertices.getD (3 * k + 2) ⟨0, 1⟩).toRat)

/-- Cross product of the edge vectors `b - a` and `c - a`. -/
def edgeCross (a b c : ℚ × ℚ × ℚ) : ℚ × ℚ × ℚ :=
  let u := (b.1 - a.1, b.2.1 - a.2.1, b.2.2 - a.2.2)
  let v := (c.1 - a.1, c.2.1 - a.2.1, c.2.2 - a.2.2)
  (u.2.1 * v.2.2 - u.2.2 * v.2.1, u.2.2 * v.1 - u.1 * v.2.2, u.1 * v.2.1 - u.2.1 * v.1)

/-- Square of the area of the triangle with corners `a`, `b`, `c`. -/
def areaSquared (a b c : ℚ × ℚ × ℚ) : ℚ :=
  let n := edgeCross a b c
  (n.1 * n.1 + n.2.1 * n.2.1 + n.2.2 * n.2.2) / 4

/-- Area of a triangle lying in the plane z = 0. -/
def planarArea (a b c : ℚ × ℚ × ℚ) : ℚ :=
  |(edgeCross a b c).2.2| / 2

/-- Squared area of the k-th indexed triangle of the mesh. -/
def triangleAreaSquared (k : Nat) : ℚ :=
  areaSquared (vertexPos ((triangle k).getD 0 0)) (vertexPos ((triangle k).getD 1 0))
    (vertexPos ((triangle k).getD 2 0))

/-- Area of the k-th indexed triangle of the mesh (all its vertices have z = 0). -/
def triangleArea (k : Nat) : ℚ :=
  planarArea (vertexPos ((triangle k).getD 0 0)) (vertexPos ((triangle k).getD 1 0))
    (vertexPos ((triangle k).getD 2 0))

/-- What a pass of the render loop leaves as it found it: the handle variables,
the console, and the creation and release calls made so far. -/
def World.Keeps (w w0 : World) : Prop :=
  w.handles = w0.handles ∧ w.console = w0.console ∧
  w.trace.filter Call.isLifecycle = w0.trace.filter Call.isLifecycle

instance (w w0 : World) : Decidable (w.Keeps w0) := by
  unfold World.Keeps; infer_instance

/-- The objects the draw call depends on are in place. -/
def World.MeshReady (p : Platform) (w : World) : Prop :=
  w.VAO = p.vaoName ∧ w.gl.vertexArrayNames = [p.vaoName] ∧
  w.gl.vertexArrays = [describedArray p] ∧ w.gl.buffers = uploadedBuffers p

instance (p : Platform) (w : World) : Decidable (w.MeshReady p) := by
  unfold World.MeshReady; infer_instance

/-- The four release calls and the shutdown of the window system, as `main` ends. -/
def releaseCalls (p : Platform) : List Call :=
  [ Call.glDeleteVertexArrays p.vaoName,
    Call.glDeleteBuffers p.vboName,
    Call.glDeleteBuffers p.eboName,
    Call.glDeleteProgram p.programName,
    Call.glfwTerminate ]

/-- Size of a buffer object's data store, as a size query reports it. -/
def GLState.bufferSize (s : GLState) (n : Nat) : Option Nat :=
  (s.findBuffer n).map (fun b => b.size)

/-- The world just before `createShaderProgram` unbinds the vertex buffer (line 207). -/
def beforeUnbind (p : Platform) (w : World) : World :=
  uploadBound p (deleteShaders (linkProgram p (compileFragment p (compileVertex p
    ({ success := p.stackSuccess, infoLog := p.stackInfoLog }, w)))).2)

/-- The four creation calls of the long-lived objects, in program order. -/
def creationCalls (p : Platform) : List Call :=
  [ Call.glCreateProgram p.programName,
    Call.glGenVertexArrays p.vaoName,
    Call.glGenBuffers p.vboName,
    Call.glGenBuffers p.eboName ]

/-- Whether a console line is a diagnostic with the given tag. -/
def ConsoleLine.hasTag (t : DiagTag) : ConsoleLine → Bool
  | ConsoleLine.diag tag _ => decide (tag = t)
  | _ => false

/-- Length in bytes, terminating NUL included, of the info log a console line carries. -/
def ConsoleLine.logBytes : ConsoleLine → Nat
  | ConsoleLine.diag _ log => log.length + 1
  | _ => 0

/-- A platform used to exhibit concrete runs: every step succeeds, the escape key
is seen pressed in the second pass. -/
def samplePlatform : Platform :=
  { windowCreated := true, loaderOk := true
    vertexShaderName := 1, fragmentShaderName := 2, programName := 3
    vaoName := 1, vboName := 1, eboName := 2
    vertexCompiles := true, fragmentCompiles := true, links := true
    vertexLog := [], fragmentLog := [], programLog := []
    maxViewportWidth := 16384, maxViewportHeight := 16384
    stackSuccess := false, stackInfoLog := []
    frames := fun n => { escapePressed := n == 1, closeRequested := false, resizes := [] } }

/-- A platform on which the vertex shader does not compile, the fragment shader
does, and linking therefore fails. -/
def brokenVertexPlatform : Platform :=
  { samplePlatform with
    vertexCompiles := false, links := false
    vertexLog := [48, 58, 49], programLog := [108, 105, 110, 107] }

/-! ## Properties -/

/-! ### Setup -/

theorem statusCheck_shader (h : Nat) (tag : DiagTag) (l : Locals) (w : World) (o : ShaderObj)
    (ho : w.gl.findShader h = some o) :
    statusCheck h tag (l, w) =
      if o.compiled then
        ({ l with success := true }, { w with trace := w.trace ++ [Call.glGetShaderiv h] })
      else
        ({ success := false, infoLog := o.infoLog.take 511 },
         { w with trace := w.trace ++ [Call.glGetShaderiv h, Call.glGetShaderInfoLog h 512]
                  console := w.console ++ [ConsoleLine.diag tag (o.infoLog.take 511)] }) := by
  rcases hc : o.compiled <;>
    simp [statusCheck, glGetShaderiv, glGetShaderInfoLog, ho, hc, World.print]

theorem statusCheck_other (h : Nat) (tag : DiagTag) (l : Locals) (w : World)
    (ho : w.gl.findShader h = none) :
    statusCheck h tag (l, w) =
      if l.success then
        (l, { w with gl := w.gl.raise (w.gl.notAShader h)
                     trace := w.trace ++ [Call.glGetShaderiv h] })
      else
        (l,
         { w with gl := (w.gl.raise (w.gl.notAShader h)).raise
                          ((w.gl.raise (w.gl.notAShader h)).notAShader h)
                  trace := w.trace ++ [Call.glGetShaderiv h, Call.glGetShaderInfoLog h 512]
                  console := w.console ++ [ConsoleLine.diag tag l.infoLog] }) := by
  have h2 : (w.gl.raise (w.gl.notAShader h)).findShader h = none := by
    unfold GLState.raise GLState.findShader at *
    split <;> simpa using ho
  obtain ⟨ls, li⟩ := l
  rcases ls <;>
    simp [statusCheck, glGetShaderiv, glGetShaderInfoLog, ho, World.print, h2]



theorem compileVertex_eq (p : Platform) (l : Locals) (w : World) (hs : w.gl.shaders = []) :
    compileVertex p (l, w) =
      ({ success := p.vertexCompiles
         infoLog := if p.vertexCompiles then l.infoLog else p.vertexLog.take 511 },
       { w with gl := { w.gl with shaders := [vertexObj p false] }
                vertexShader := p.vertexShaderName
                console := w.console ++
                  (if p.vertexCompiles then []
                   else [ConsoleLine.diag DiagTag.vertex (p.vertexLog.take 511)])
                trace := w.trace ++
                  [Call.glCreateShader ShaderKind.vertex p.vertexShaderName,
                   Call.glShaderSource p.vertexShaderName vertexShaderSource,
                   Call.glCompileShader p.vertexShaderName,
                   Call.glGetShaderiv p.vertexShaderName] ++
                  (if p.vertexCompiles then []
                   else [Call.glGetShaderInfoLog p.vertexShaderName 512]) }) := by
  unfold compileVertex
  simp only [World.call]
  rw [statusCheck_shader (o := vertexObj p false)]
  · rcases hv : p.vertexCompiles <;>
      simp [vertexObj, glCreateShader, glShaderSource, glCompileShader, GLState.findShader,
        GLState.mapShader, hs, hv]
  · simp [vertexObj, glCreateShader, glShaderSource, glCompileShader, GLState.findShader,
        GLState.mapShader, hs]

theorem compileFragment_eq (p : Platform) (l : Locals) (w : World)
    (hne : p.vertexShaderName ≠ p.fragmentShaderName)
    (hs : w.gl.shaders = [vertexObj p false]) :
    compileFragment p (l, w) =
      ({ success := p.fragmentCompiles
         infoLog := if p.fragmentCompiles then l.infoLog else p.fragmentLog.take 511 },
       { w with gl := { w.gl with shaders := [vertexObj p false, fragmentObj p false] }
                fragmentShader := p.fragmentShaderName
                console := w.console ++
                  (if p.fragmentCompiles then []
                   else [ConsoleLine.diag DiagTag.fragment (p.fragmentLog.take 511)])
                trace := w.trace ++
                  [Call.glCreateShader ShaderKind.fragment p.fragmentShaderName,
                   Call.glShaderSource p.fragmentShaderName fragmentShaderSource,
                   Call.glCompileShader p.fragmentShaderName,
                   Call.glGetShaderiv p.fragmentShaderName] ++
                  (if p.fragmentCompiles then []
                   else [Call.glGetShaderInfoLog p.fragmentShaderName 512]) }) := by
  have hne2 := Ne.symm hne
  unfold compileFragment
  simp only [World.call]
  rw [statusCheck_shader (o := fragmentObj p false)]
  · rcases hv : p.fragmentCompiles <;>
      simp [vertexObj, fragmentObj, glCreateShader, glShaderSource, glCompileShader,
        GLState.findShader, GLState.mapShader, hs, hv, hne, hne2]
  · simp [vertexObj, fragmentObj, glCreateShader, glShaderSource, glCompileShader,
        GLState.findShader, GLState.mapShader, hs, hne, hne2]

theorem linkProgram_eq (p : Platform) (l : Locals) (w : World)
    (h1 : p.programName ≠ p.vertexShaderName) (h2 : p.programName ≠ p.fragmentShaderName)
    (hne : p.vertexShaderName ≠ p.fragmentShaderName)
    (hs : w.gl.shaders = [vertexObj p false, fragmentObj p false])
    (hp : w.gl.programs = []) (he : w.gl.error = GLError.noError)
    (hv : w.vertexShader = p.vertexShaderName) (hf : w.fragmentShader = p.fragmentShaderName) :
    linkProgram p (l, w) =
      (l,
       { w with gl := { w.gl with programs := [programObj p], error := GLError.invalidOperation }
                shaderProgram := p.programName
                console := w.console ++
                  (if l.success then [] else [ConsoleLine.diag DiagTag.program l.infoLog])
                trace := w.trace ++
                  [Call.glCreateProgram p.programName,
                   Call.glAttachShader p.programName p.vertexShaderName,
                   Call.glAttachShader p.programName p.fragmentShaderName,
                   Call.glLinkProgram p.programName,
                   Call.glGetShaderiv p.programName] ++
                  (if l.success then []
                   else [Call.glGetShaderInfoLog p.programName 512]) }) := by
  have h1s := Ne.symm h1
  have h2s := Ne.symm h2
  have hne2 := Ne.symm hne
  unfold linkProgram
  simp only [World.call]
  rw [statusCheck_other]
  · rcases hsucc : l.success <;>
      simp [hsucc, vertexObj, fragmentObj, programObj, glCreateProgram, glAttachShader, glLinkProgram,
        GLState.findShader, GLState.findProgram, GLState.mapProgram, GLState.raise,
        GLState.notAShader, hs, hp, he, hv, hf, h1, h2, h1s, h2s, hne, hne2]
  · simp [vertexObj, fragmentObj, programObj, glCreateProgram, glAttachShader, glLinkProgram,
        GLState.findShader, GLState.findProgram, GLState.mapProgram, GLState.raise,
        GLState.notAShader, GLState.notAProgram, hs, hp, he, hv, hf, h1, h2, h1s, h2s, hne, hne2]


theorem deleteShaders_eq (p : Platform) (w : World)
    (h1 : p.vertexShaderName ≠ 0) (h2 : p.fragmentShaderName ≠ 0)
    (hne : p.vertexShaderName ≠ p.fragmentShaderName)
    (hs : w.gl.shaders = [vertexObj p false, fragmentObj p false])
    (hp : w.gl.programs = [programObj p])
    (hv : w.vertexShader = p.vertexShaderName) (hf : w.fragmentShader = p.fragmentShaderName) :
    deleteShaders w =
      { w with gl := { w.gl with shaders := [vertexObj p true, fragmentObj p true] }
               trace := w.trace ++
                 [Call.glDeleteShader p.vertexShaderName,
                  Call.glDeleteShader p.fragmentShaderName] } := by
  have hne2 := Ne.symm hne
  unfold deleteShaders
  simp [World.call, vertexObj, fragmentObj, programObj, glDeleteShader, GLState.findShader,
    GLState.mapShader, hs, hp, hv, hf, h1, h2, hne, hne2]





theorem uploadBound_eq (p : Platform) (w : World)
    (h1 : p.vaoName ≠ 0) (h2 : p.vboName ≠ 0) (h3 : p.eboName ≠ 0) (hne : p.vboName ≠ p.eboName)
    (hvn : w.gl.vertexArrayNames = []) (hva : w.gl.vertexArrays = [])
    (hbn : w.gl.bufferNames = []) (hb : w.gl.buffers = []) :
    uploadBound p w =
      { w with gl := { w.gl with vertexArrayNames := [p.vaoName]
                                 vertexArrays := [describedArray p]
                                 bufferNames := [p.vboName, p.eboName]
                                 buffers := uploadedBuffers p
                                 vertexArrayBinding := p.vaoName
                                 arrayBufferBinding := p.vboName }
               VAO := p.vaoName, VBO := p.vboName, EBO := p.eboName
               trace := w.trace ++
                 [Call.glGenVertexArrays p.vaoName,
                  Call.glGenBuffers p.vboName,
                  Call.glGenBuffers p.eboName,
                  Call.glBindVertexArray p.vaoName,
                  Call.glBindBuffer BufferTarget.arrayBuffer p.vboName,
                  Call.glBufferData BufferTarget.arrayBuffer 48 (BufferData.floats vertices),
                  Call.glBindBuffer BufferTarget.elementArrayBuffer p.eboName,
                  Call.glBufferData BufferTarget.elementArrayBuffer 24 (BufferData.uints indices),
                  Call.glVertexAttribPointer 0 3 false 12 0,
                  Call.glEnableVertexAttribArray 0] } := by
  have hne2 := Ne.symm hne
  unfold uploadBound
  simp [World.call, uploadedBuffers, describedArray, glGenVertexArrays, glGenBuffers,
    glBindVertexArray, glBindBuffer, glBufferData, glVertexAttribPointer,
    glEnableVertexAttribArray, ensureBuffer, GLState.findBuffer, GLState.findVertexArray,
    GLState.mapBuffer, GLState.mapVertexArray, GLState.bufferBinding, VertexArrayObj.setAttrib,
    VertexArrayObj.attrib, VertexAttrib.initial, sizeofFloat, sizeofUInt, vertices, indices,
    hvn, hva, hbn, hb, h1, h2, h3, hne, hne2]

theorem unbindAfterUpload_eq (w : World) :
    unbindAfterUpload w =
      { w with gl := { w.gl with vertexArrayBinding := 0, arrayBufferBinding := 0 }
               trace := w.trace ++
                 [Call.glBindBuffer BufferTarget.arrayBuffer 0, Call.glBindVertexArray 0] } := by
  unfold unbindAfterUpload
  simp [World.call, glBindBuffer, glBindVertexArray, ensureBuffer]


theorem createShaderProgram_eq (p : Platform) (w : World) (hn : p.FreshNames)
    (hg : w.gl.Fresh) : createShaderProgram p w = setupWorld p w := by
  obtain ⟨n1, n2, n3, n4, n5, n6, n7, n8, n9, n10⟩ := hn
  obtain ⟨g1, g2, g3, g4, g5, g6, g7⟩ := hg
  unfold createShaderProgram uploadGeometry
  simp only []
  rw [compileVertex_eq p _ w g2, compileFragment_eq p _ _ n7 rfl,
    linkProgram_eq p _ _ n8 n9 n7 rfl (by simpa using g3) (by simpa using g1) rfl rfl,
    deleteShaders_eq p _ n1 n2 n7 rfl rfl rfl rfl,
    uploadBound_eq p _ n4 n5 n6 n10 (by simpa using g6) (by simpa using g7)
      (by simpa using g4) (by simpa using g5),
    unbindAfterUpload_eq]
  rcases hv : p.vertexCompiles <;> rcases hfc : p.fragmentCompiles <;>
    simp [setupWorld, setupState, setupTrace, diagnostics, hv, hfc]

/-! ### The render loop -/

theorem resizes_foldl_inv (P : World → Prop)
    (h : ∀ a b w, P w → P (framebuffer_size_callback a b w)) (l : List (Int × Int)) (w : World)
    (hw : P w) : P (l.foldl (fun w e => framebuffer_size_callback e.1 e.2 w) w) := by
  induction l generalizing w with
  | nil => simpa using hw
  | cons e l ih => simpa using ih _ (h e.1 e.2 w hw)

theorem glfwPollEvents_shouldClose (i : FrameInput) (w : World) :
    (glfwPollEvents i w).shouldClose = (w.shouldClose || i.closeRequested) := by
  have h := resizes_foldl_inv (fun v => v.shouldClose = w.shouldClose)
    (fun a b v hv => by simpa [framebuffer_size_callback, World.call] using hv)
    i.resizes (w.note Call.glfwPollEvents) (by simp [World.note])
  unfold glfwPollEvents
  rcases hc : i.closeRequested <;> simp [h]

theorem renderFrame_shouldClose (i : FrameInput) (w : World) :
    (renderFrame i w).shouldClose = (w.shouldClose || i.escapePressed || i.closeRequested) := by
  unfold renderFrame
  simp only [glfwPollEvents_shouldClose]
  rcases he : i.escapePressed <;>
    simp [prepareDraw, processInput, World.call, World.note, he]

/-- Invariants of the world are kept by a pass of the loop body when every statement
of the body keeps them. -/
theorem renderFrame_inv (P : World → Prop)
    (hnote : ∀ c w, c ∈ [Call.glfwGetKeyEscape, Call.glfwSetWindowShouldClose true,
      Call.glfwSwapBuffers, Call.glfwPollEvents] → P w → P (w.note c))
    (hflag : ∀ w, P w → P { w with shouldClose := true })
    (hcall : ∀ w, P w →
      P (w.call (Call.glClearColor ⟨2, 10⟩ ⟨3, 10⟩ ⟨3, 10⟩ ⟨10, 10⟩)
          (glClearColor ⟨2, 10⟩ ⟨3, 10⟩ ⟨3, 10⟩ ⟨10, 10⟩)) ∧
      P (w.call Call.glClear glClear) ∧
      P (w.call (Call.glUseProgram w.shaderProgram) (glUseProgram w.shaderProgram)) ∧
      P (w.call (Call.glBindVertexArray w.VAO) (glBindVertexArray w.VAO)) ∧
      P (w.call (Call.glDrawElements 6 0) (glDrawElements 6 0)) ∧
      ∀ a b, P (framebuffer_size_callback a b w))
    (i : FrameInput) (w : World) (hw : P w) : P (renderFrame i w) := by
  have h1 : P (processInput i.escapePressed w) := by
    unfold processInput
    rcases i.escapePressed
    · simpa using hnote Call.glfwGetKeyEscape _ (by simp) hw
    · simpa using hflag _ (hnote (Call.glfwSetWindowShouldClose true) _ (by simp)
        (hnote Call.glfwGetKeyEscape _ (by simp) hw))
  have h2 := (hcall _ h1).1
  have h3 := (hcall _ h2).2.1
  have h4 := (hcall _ h3).2.2.1
  have h5 := (hcall _ h4).2.2.2.1
  have h6 := (hcall _ h5).2.2.2.2.1
  have h7 := hnote Call.glfwSwapBuffers _ (by simp) h6
  have h8 := hnote Call.glfwPollEvents _ (by simp) h7
  have h9 := resizes_foldl_inv P (fun a b v hv => (hcall v hv).2.2.2.2.2 a b) i.resizes _ h8
  unfold renderFrame glfwPollEvents prepareDraw
  rcases i.closeRequested
  · simpa using h9
  · simpa using hflag _ h9

theorem renderLoop_inv (P : World → Prop) (p : Platform)
    (hnote : ∀ w, P w → P (w.note Call.glfwWindowShouldClose))
    (hframe : ∀ i w, P w → P (renderFrame i w))
    (fuel n : Nat) (w v : World) (hw : P w) (hr : renderLoop p fuel n w = some v) : P v := by
  induction fuel generalizing n w with
  | zero => simp [renderLoop] at hr
  | succ fuel ih =>
    unfold renderLoop at hr
    simp only at hr
    split at hr
    · cases hr; exact hnote w hw
    · exact ih _ _ (hframe _ _ (hnote w hw)) hr

theorem renderLoop_shouldClose (p : Platform) (fuel n : Nat) (w v : World)
    (hr : renderLoop p fuel n w = some v) : v.shouldClose = true := by
  induction fuel generalizing n w with
  | zero => simp [renderLoop] at hr
  | succ fuel ih =>
    unfold renderLoop at hr
    simp only at hr
    split at hr
    · cases hr; assumption
    · exact ih _ _ hr

theorem renderLoop_isSome (p : Platform) (fuel n : Nat) (w : World) :
    (renderLoop p fuel n w).isSome = closesWithin p.frames fuel n w.shouldClose := by
  induction fuel generalizing n w with
  | zero => simp [renderLoop, closesWithin]
  | succ fuel ih =>
    unfold renderLoop closesWithin
    rcases hc : w.shouldClose
    · simp [World.note, hc, ih, renderFrame_shouldClose]
    · simp [World.note, hc]

theorem closesWithin_of_request (p : Platform) (k : Nat)
    (hk : (p.frames k).escapePressed = true ∨ (p.frames k).closeRequested = true) :
    ∀ (n fuel : Nat) (flag : Bool), n ≤ k → k + 2 ≤ n + fuel → closesWithin p.frames fuel n flag = true := by
  intro n fuel
  induction fuel generalizing n with
  | zero => intro flag h1 h2; omega
  | succ fuel ih =>
    intro flag h1 h2
    unfold closesWithin
    rcases flag
    · simp only [Bool.false_eq_true, ↓reduceIte]
      rcases Nat.eq_or_lt_of_le h1 with h | h
      · subst h
        have : fuel ≠ 0 := by omega
        obtain ⟨m, rfl⟩ := Nat.exists_eq_succ_of_ne_zero this
        have hb : ((p.frames n).escapePressed || (p.frames n).closeRequested) = true := by
          rcases hk with h | h <;> simp [h]
        rw [hb]; simp [closesWithin]
      · exact ih (n + 1) _ (by omega) (by omega)
    · simp

/-! ### The function main -/

theorem statusCheck_shouldClose (h : Nat) (tag : DiagTag) (st : Locals × World) :
    (statusCheck h tag st).2.shouldClose = st.2.shouldClose := by
  unfold statusCheck
  simp only [World.print]
  split <;> rfl

theorem createShaderProgram_shouldClose (p : Platform) (w : World) :
    (createShaderProgram p w).shouldClose = w.shouldClose := by
  simp [createShaderProgram, uploadGeometry, unbindAfterUpload, uploadBound, deleteShaders,
    linkProgram, compileFragment, compileVertex, World.call, statusCheck_shouldClose]

theorem beforeSetup_fresh (p : Platform) : (beforeSetup p).gl.Fresh := by
  simp [beforeSetup, startup, World.note, World.initial, GLState.initial, GLState.Fresh]

theorem main_eq (p : Platform) (fuel : Nat) :
    main p fuel =
      if p.windowCreated = false then
        some { exitCode := -1
               world := ((startup p).print ConsoleLine.failedWindow).note Call.glfwTerminate }
      else if p.loaderOk = false then
        some { exitCode := -1, world := (beforeSetup p).print ConsoleLine.failedGlad }
      else
        (renderLoop p fuel 0 (createShaderProgram p (beforeSetup p))).map
          (fun w => { exitCode := 0, world := teardown w }) := by
  unfold main beforeSetup
  rcases p.windowCreated <;> rcases p.loaderOk <;> simp
  split <;> simp_all

theorem teardown_shouldClose (w : World) : (teardown w).shouldClose = w.shouldClose := by
  simp [teardown, World.call, World.note]

theorem main_exitCode (p : Platform) (fuel : Nat) :
    (main p fuel).map Outcome.exitCode =
      if p.windowCreated = false ∨ p.loaderOk = false then some (-1)
      else if closesWithin p.frames fuel 0 false then some 0 else none := by
  rw [main_eq]
  rcases hw : p.windowCreated
  · simp only [↓reduceIte, Option.map_some', true_or]
  rcases hl : p.loaderOk
  · simp only [Bool.true_eq_false, ↓reduceIte, Option.map_some', or_true]
  simp only [Bool.true_eq_false, ↓reduceIte, or_self, Option.map_map]
  have h := renderLoop_isSome p fuel 0 (createShaderProgram p (beforeSetup p))
  rw [createShaderProgram_shouldClose] at h
  have h0 : (beforeSetup p).shouldClose = false := by
    simp [beforeSetup, startup, World.note, World.initial]
  rw [h0] at h
  rcases hr : renderLoop p fuel 0 (createShaderProgram p (beforeSetup p)) with _ | v
  · rw [hr] at h
    simp only [Option.isSome_none] at h
    simp only [Option.map_none', ← h, Bool.false_eq_true, ↓reduceIte]
  · rw [hr] at h
    simp only [Option.isSome_some] at h
    simp only [Option.map_some', ← h, ↓reduceIte, Function.comp_apply]

/-- C3. Every terminating run of `main` returns -1 exactly when window creation or
the driver loader failed, and 0 exactly when both succeeded, which is exactly when the
run ends with the close flag set.  A failed start-up always terminates; a run that
starts up terminates once some pass sees the escape key or a close request, given
fuel for its loop tests.  The outcomes of compiling and linking never change the
exit code, nor whether the run terminates. -/
theorem main_exit_code (p : Platform) (fuel : Nat) :
    (∀ o, main p fuel = some o →
      (o.exitCode = -1 ↔ (p.windowCreated = false ∨ p.loaderOk = false)) ∧
      (o.exitCode = 0 ↔ (p.windowCreated = true ∧ p.loaderOk = true)) ∧
      (o.exitCode = 0 ↔ o.world.shouldClose = true)) ∧
    ((p.windowCreated = false ∨ p.loaderOk = false) → ∃ w, main p fuel = some ⟨-1, w⟩) ∧
    (∀ k, p.windowCreated = true → p.loaderOk = true →
      ((p.frames k).escapePressed = true ∨ (p.frames k).closeRequested = true) →
      k + 2 ≤ fuel → ∃ w, main p fuel = some ⟨0, w⟩) ∧
    (∀ vc fc lk : Bool,
      (main { p with vertexCompiles := vc, fragmentCompiles := fc, links := lk } fuel).map
        Outcome.exitCode = (main p fuel).map Outcome.exitCode) := by
  refine ⟨?_, ?_, ?_, ?_⟩
  · intro o ho
    rw [main_eq] at ho
    rcases hw : p.windowCreated
    · simp [hw] at ho
      subst ho
      simp [startup, World.note, World.print, World.initial]
    · rcases hl : p.loaderOk
      · simp [hw, hl] at ho
        subst ho
        simp [beforeSetup, startup, World.note, World.print, World.initial]
      · simp [hw, hl] at ho
        obtain ⟨v, hv, rfl⟩ := ho
        simp [teardown_shouldClose, renderLoop_shouldClose p fuel 0 _ v hv]
  · intro h
    rw [main_eq]
    rcases hw : p.windowCreated
    · exact ⟨_, by rw [if_pos rfl]⟩
    · rcases h with h | h
      · rw [hw] at h; cases h
      · exact ⟨_, by rw [if_neg (by simp), if_pos h]⟩
  · intro k hw hl hk hfuel
    have h := main_exitCode p fuel
    rw [closesWithin_of_request p k hk 0 fuel false (Nat.zero_le _) (by omega)] at h
    simp [hw, hl] at h
    obtain ⟨o, ho, hc⟩ := h
    refine ⟨o.world, ?_⟩
    rw [ho, ← hc]
  · intro vc fc lk
    rw [main_exitCode, main_exitCode]

theorem main_exit_code_witness : ∃ w, main samplePlatform 3 = some ⟨0, w⟩ :=
  (main_exit_code samplePlatform 3).2.2.1 1 rfl rfl (Or.inl rfl) (by decide)

/-! ### Lifetime of the four objects -/

theorem renderFrame_keeps (w0 : World) (i : FrameInput) (w : World) (hw : w.Keeps w0) :
    (renderFrame i w).Keeps w0 := by
  refine renderFrame_inv (fun v => v.Keeps w0) ?_ ?_ ?_ i w hw
  · intro c v hc hv
    simp only [List.mem_cons, List.mem_singleton, List.not_mem_nil, or_false] at hc
    rcases hc with rfl | rfl | rfl | rfl <;>
      simpa [World.Keeps, World.note, World.handles, Call.isLifecycle] using hv
  · intro v hv
    simpa [World.Keeps, World.handles] using hv
  · intro v hv
    simp only [World.Keeps, World.call, World.handles, framebuffer_size_callback,
      List.filter_append, List.filter_cons, List.filter_nil, Call.isLifecycle,
      Bool.false_eq_true, ↓reduceIte, List.append_nil]
    exact ⟨hv, hv, hv, hv, hv, fun _ _ => hv⟩

theorem renderLoop_keeps (p : Platform) (fuel n : Nat) (w v : World)
    (hr : renderLoop p fuel n w = some v) : v.Keeps w := by
  refine renderLoop_inv (fun u => u.Keeps w) p ?_ (fun i u hu => renderFrame_keeps w i u hu)
    fuel n w v ⟨rfl, rfl, rfl⟩ hr
  intro u hu
  simpa [World.Keeps, World.note, World.handles, Call.isLifecycle] using hu

theorem afterPasses_keeps (p : Platform) (k n : Nat) (w : World) :
    (afterPasses p k n w).Keeps w := by
  suffices h : ∀ u : World, u.Keeps w → (afterPasses p k n u).Keeps w from h w ⟨rfl, rfl, rfl⟩
  induction k generalizing n with
  | zero => intro u hu; simpa [afterPasses] using hu
  | succ k ih => intro u hu; exact ih (n + 1) _ (renderFrame_keeps w _ u hu)

theorem setupTrace_lifecycle (p : Platform) :
    (setupTrace p).filter Call.isLifecycle = creationCalls p := by
  rcases hv : p.vertexCompiles <;> rcases hf : p.fragmentCompiles <;>
    simp [setupTrace, creationCalls, Call.isLifecycle, hv, hf, List.filter]

theorem teardown_trace (w : World) :
    (teardown w).trace = w.trace ++
      [ Call.glDeleteVertexArrays w.VAO, Call.glDeleteBuffers w.VBO, Call.glDeleteBuffers w.EBO,
        Call.glDeleteProgram w.shaderProgram, Call.glfwTerminate ] := by
  simp [teardown, World.call, World.note]

theorem teardown_handles (w : World) : (teardown w).handles = w.handles := by
  simp [teardown, World.call, World.note, World.handles]

/-- C6. In a run of `main` that ends with exit code 0 (object names as the graphics
library hands them out): the creation and release calls of the whole run are the
four creations followed by the four releases, one per object; the run ends with the
four releases and `glfwTerminate`, everything else (the whole render loop included)
coming before; each of these eight calls occurs exactly once in the run; and the
handle variables hold the values `createShaderProgram` gave
them after every pass of the loop and at the end. -/
theorem resources_created_and_released_once (p : Platform) (fuel : Nat) (o : Outcome)
    (hn : p.FreshNames) (hm : main p fuel = some o) (h0 : o.exitCode = 0) :
    o.world.trace.filter Call.isLifecycle =
      creationCalls p ++
      [ Call.glDeleteVertexArrays p.vaoName, Call.glDeleteBuffers p.vboName,
        Call.glDeleteBuffers p.eboName, Call.glDeleteProgram p.programName ] ∧
    (∀ c ∈ creationCalls p ++
        [ Call.glDeleteVertexArrays p.vaoName, Call.glDeleteBuffers p.vboName,
          Call.glDeleteBuffers p.eboName, Call.glDeleteProgram p.programName ],
      o.world.trace.count c = 1) ∧
    (∃ v, renderLoop p fuel 0 (createShaderProgram p (beforeSetup p)) = some v ∧
      o.world.trace = v.trace ++ releaseCalls p ∧
      v.trace.filter Call.isLifecycle = creationCalls p) ∧
    (createShaderProgram p (beforeSetup p)).handles =
      [p.vboName, p.vaoName, p.vertexShaderName, p.fragmentShaderName, p.programName,
       p.eboName] ∧
    (∀ k, (afterPasses p k 0 (createShaderProgram p (beforeSetup p))).handles =
      (createShaderProgram p (beforeSetup p)).handles) ∧
    o.world.handles = (createShaderProgram p (beforeSetup p)).handles := by
  have hs := createShaderProgram_eq p (beforeSetup p) hn (beforeSetup_fresh p)
  have hh : (createShaderProgram p (beforeSetup p)).handles =
      [p.vboName, p.vaoName, p.vertexShaderName, p.fragmentShaderName, p.programName,
       p.eboName] := by
    rw [hs]; simp [setupWorld, World.handles]
  have ht : (createShaderProgram p (beforeSetup p)).trace.filter Call.isLifecycle =
      creationCalls p := by
    rw [hs]
    simp only [setupWorld, List.filter_append, setupTrace_lifecycle]
    simp [beforeSetup, startup, World.note, World.initial, Call.isLifecycle, List.filter]
  rw [main_eq] at hm
  rcases hw : p.windowCreated
  · simp [hw] at hm; subst hm; simp at h0
  rcases hl : p.loaderOk
  · simp [hw, hl] at hm; subst hm; simp at h0
  simp [hw, hl] at hm
  obtain ⟨v, hv, rfl⟩ := hm
  obtain ⟨k1, k2, k3⟩ := renderLoop_keeps p fuel 0 _ v hv
  have hV : v.VAO = p.vaoName ∧ v.VBO = p.vboName ∧ v.EBO = p.eboName ∧
      v.shaderProgram = p.programName := by
    rw [hh] at k1
    simp only [World.handles, List.cons.injEq, and_true] at k1
    exact ⟨k1.2.1, k1.1, k1.2.2.2.2.2, k1.2.2.2.2.1⟩
  obtain ⟨v1, v2, v3, v4⟩ := hV
  have htr : (teardown v).trace = v.trace ++ releaseCalls p := by
    rw [teardown_trace, v1, v2, v3, v4]; rfl
  have hfil : (teardown v).trace.filter Call.isLifecycle =
      creationCalls p ++
      [ Call.glDeleteVertexArrays p.vaoName, Call.glDeleteBuffers p.vboName,
        Call.glDeleteBuffers p.eboName, Call.glDeleteProgram p.programName ] := by
    rw [htr, List.filter_append, k3, ht]
    simp [releaseCalls, Call.isLifecycle, List.filter]
  refine ⟨hfil, ?_, ⟨v, hv, htr, by rw [k3, ht]⟩, hh, ?_, ?_⟩
  · intro c hc
    have hne := hn.2.2.2.2.2.2.2.2.2
    have hlc : c.isLifecycle = true := by
      simp only [creationCalls, List.cons_append, List.nil_append, List.mem_cons,
        List.mem_singleton, List.not_mem_nil, or_false] at hc
      rcases hc with rfl | rfl | rfl | rfl | rfl | rfl | rfl | rfl <;> rfl
    have hcount : (teardown v).trace.count c =
        ((teardown v).trace.filter Call.isLifecycle).count c :=
      (List.count_filter hlc).symm
    show (teardown v).trace.count c = 1
    rw [hcount, hfil]
    simp only [creationCalls, List.cons_append, List.nil_append, List.mem_cons,
      List.mem_singleton, List.not_mem_nil, or_false] at hc
    rcases hc with rfl | rfl | rfl | rfl | rfl | rfl | rfl | rfl <;>
      simp [creationCalls, List.count_cons, hne, Ne.symm hne]
  · intro k
    exact (afterPasses_keeps p k 0 _).1
  · rw [teardown_handles]; exact k1

theorem resources_created_and_released_once_witness :
    ∃ o, main samplePlatform 3 = some o ∧ o.exitCode = 0 ∧
      o.world.trace.filter Call.isLifecycle =
        creationCalls samplePlatform ++
        [ Call.glDeleteVertexArrays 1, Call.glDeleteBuffers 1, Call.glDeleteBuffers 2,
          Call.glDeleteProgram 3 ] :=
  ⟨_, rfl, rfl,
   (resources_created_and_released_once samplePlatform 3 _ (by decide) rfl rfl).1⟩

/-! ### The draw call -/

theorem raise_objects (e : GLError) (g : GLState) :
    (g.raise e).vertexArrayNames = g.vertexArrayNames ∧
    (g.raise e).vertexArrays = g.vertexArrays ∧ (g.raise e).buffers = g.buffers ∧
    (g.raise e).vertexArrayBinding = g.vertexArrayBinding := by
  unfold GLState.raise
  split <;> simp

theorem glUseProgram_objects (n : Nat) (g : GLState) :
    (glUseProgram n g).vertexArrayNames = g.vertexArrayNames ∧
    (glUseProgram n g).vertexArrays = g.vertexArrays ∧ (glUseProgram n g).buffers = g.buffers := by
  unfold glUseProgram
  split
  · simp
  · split
    · split
      · simp
      · exact ⟨(raise_objects _ g).1, (raise_objects _ g).2.1, (raise_objects _ g).2.2.1⟩
    · exact ⟨(raise_objects _ g).1, (raise_objects _ g).2.1, (raise_objects _ g).2.2.1⟩

theorem glBindVertexArray_ready (p : Platform) (g : GLState)
    (h1 : g.vertexArrayNames = [p.vaoName]) (h2 : g.vertexArrays = [describedArray p])
    (h3 : g.buffers = uploadedBuffers p) :
    (glBindVertexArray p.vaoName g).vertexArrayNames = [p.vaoName] ∧
    (glBindVertexArray p.vaoName g).vertexArrays = [describedArray p] ∧
    (glBindVertexArray p.vaoName g).buffers = uploadedBuffers p ∧
    (glBindVertexArray p.vaoName g).vertexArrayBinding = (if p.vaoName = 0 then 0 else p.vaoName) := by
  unfold glBindVertexArray
  by_cases hz : p.vaoName = 0
  · simp [hz, h1, h2, h3]
  · simp [hz, h1, h2, h3, GLState.findVertexArray, describedArray]

theorem glDrawElements_objects (a b : Nat) (g : GLState) :
    (glDrawElements a b g).vertexArrayNames = g.vertexArrayNames ∧
    (glDrawElements a b g).vertexArrays = g.vertexArrays ∧
    (glDrawElements a b g).buffers = g.buffers := by
  unfold glDrawElements
  split
  · simp
  · exact ⟨(raise_objects _ g).1, (raise_objects _ g).2.1, (raise_objects _ g).2.2.1⟩

theorem glViewport_objects (x y a b : Int) (g : GLState) :
    (glViewport x y a b g).vertexArrayNames = g.vertexArrayNames ∧
    (glViewport x y a b g).vertexArrays = g.vertexArrays ∧
    (glViewport x y a b g).buffers = g.buffers := by
  unfold glViewport
  split
  · exact ⟨(raise_objects _ g).1, (raise_objects _ g).2.1, (raise_objects _ g).2.2.1⟩
  · simp

theorem renderFrame_meshReady (p : Platform) (i : FrameInput) (w : World)
    (hw : w.MeshReady p) : (renderFrame i w).MeshReady p := by
  refine renderFrame_inv (fun v => v.MeshReady p) ?_ ?_ ?_ i w hw
  · intro c v _ hv
    simpa [World.MeshReady, World.note] using hv
  · intro v hv
    simpa [World.MeshReady] using hv
  · intro v hv
    obtain ⟨a1, a2, a3, a4⟩ := hv
    have hu := glUseProgram_objects v.shaderProgram v.gl
    have hb := glBindVertexArray_ready p v.gl a2 a3 a4
    have hd := glDrawElements_objects 6 0 v.gl
    refine ⟨?_, ?_, ?_, ?_, ?_, ?_⟩
    · simpa [World.MeshReady, World.call, glClearColor] using ⟨a1, a2, a3, a4⟩
    · simpa [World.MeshReady, World.call, glClear] using ⟨a1, a2, a3, a4⟩
    · exact ⟨a1, by simpa [World.call, a2] using hu.1, by simpa [World.call, a3] using hu.2.1,
        by simpa [World.call, a4] using hu.2.2⟩
    · rw [a1]
      exact ⟨a1, hb.1, hb.2.1, hb.2.2.1⟩
    · exact ⟨a1, by simpa [World.call, a2] using hd.1, by simpa [World.call, a3] using hd.2.1,
        by simpa [World.call, a4] using hd.2.2⟩
    · intro a b
      have hvp := glViewport_objects 0 0 a b v.gl
      exact ⟨a1, by simpa [framebuffer_size_callback, World.call, a2] using hvp.1,
        by simpa [framebuffer_size_callback, World.call, a3] using hvp.2.1,
        by simpa [framebuffer_size_callback, World.call, a4] using hvp.2.2⟩

theorem afterPasses_meshReady (p : Platform) (k n : Nat) (w : World) (hw : w.MeshReady p) :
    (afterPasses p k n w).MeshReady p := by
  induction k generalizing n w with
  | zero => simpa [afterPasses] using hw
  | succ k ih => exact ih (n + 1) _ (renderFrame_meshReady p _ w hw)

theorem prepareDraw_gl (p : Platform) (i : FrameInput) (w : World) (hz : p.vaoName ≠ 0)
    (hw : w.MeshReady p) :
    (prepareDraw i w).gl.vertexArrayBinding = p.vaoName ∧
    (prepareDraw i w).gl.vertexArrays = [describedArray p] ∧
    (prepareDraw i w).gl.buffers = uploadedBuffers p := by
  obtain ⟨a1, a2, a3, a4⟩ := hw
  have hV : (processInput i.escapePressed w).VAO = p.vaoName := by
    unfold processInput; rcases i.escapePressed <;> simpa [World.note] using a1
  have hG : (processInput i.escapePressed w).gl = w.gl := by
    unfold processInput; rcases i.escapePressed <;> simp [World.note]
  have hu := glUseProgram_objects (processInput i.escapePressed w).shaderProgram
    (glClear (glClearColor ⟨2, 10⟩ ⟨3, 10⟩ ⟨3, 10⟩ ⟨10, 10⟩ w.gl))
  have hb := glBindVertexArray_ready p _ (hu.1.trans (by simpa [glClear, glClearColor] using a2))
    (hu.2.1.trans (by simpa [glClear, glClearColor] using a3))
    (hu.2.2.trans (by simpa [glClear, glClearColor] using a4))
  simp only [hz, ↓reduceIte] at hb
  unfold prepareDraw
  simp only [World.call, hV, hG]
  exact ⟨hb.2.2.2, hb.2.1, hb.2.2.1⟩

theorem drawElementsInBounds_ready (p : Platform) (g : GLState) (hne : p.vboName ≠ p.eboName)
    (h1 : g.vertexArrayBinding = p.vaoName) (h2 : g.vertexArrays = [describedArray p])
    (h3 : g.buffers = uploadedBuffers p) : drawElementsInBounds g 6 0 = true := by
  have hne2 := Ne.symm hne
  simp [drawElementsInBounds, GLState.findVertexArray, GLState.findBuffer, h1, h2, h3,
    describedArray, uploadedBuffers, fetchedIndices, indices, sizeofUInt, sizeofFloat, hne, hne2]

theorem setupWorld_meshReady (p : Platform) (w : World) : (setupWorld p w).MeshReady p := by
  simp [setupWorld, setupState, World.MeshReady]

theorem beforeUnbind_gl (p : Platform) (w : World) (hn : p.FreshNames) (hg : w.gl.Fresh) :
    (beforeUnbind p w).gl =
      { setupState p w.gl with vertexArrayBinding := p.vaoName, arrayBufferBinding := p.vboName } := by
  obtain ⟨n1, n2, n3, n4, n5, n6, n7, n8, n9, n10⟩ := hn
  obtain ⟨g1, g2, g3, g4, g5, g6, g7⟩ := hg
  unfold beforeUnbind
  rw [compileVertex_eq p _ w g2, compileFragment_eq p _ _ n7 rfl,
    linkProgram_eq p _ _ n8 n9 n7 rfl (by simpa using g3) (by simpa using g1) rfl rfl,
    deleteShaders_eq p _ n1 n2 n7 rfl rfl rfl rfl,
    uploadBound_eq p _ n4 n5 n6 n10 (by simpa using g6) (by simpa using g7)
      (by simpa using g4) (by simpa using g5)]
  simp [setupState]

theorem setupTrace_uploads (p : Platform) :
    (setupTrace p).filter Call.isUpload =
      [ Call.glBufferData BufferTarget.arrayBuffer 48 (BufferData.floats vertices),
        Call.glBufferData BufferTarget.elementArrayBuffer 24 (BufferData.uints indices) ] := by
  rcases hv : p.vertexCompiles <;> rcases hf : p.fragmentCompiles <;>
    simp [setupTrace, Call.isUpload, hv, hf, List.filter]

theorem setupTrace_stateChanging (p : Platform) :
    (setupTrace p).filter (fun c => !c.isQuery) = setupCalls p := by
  rcases hv : p.vertexCompiles <;> rcases hf : p.fragmentCompiles <;>
    simp [setupTrace, setupCalls, Call.isQuery, hv, hf, List.filter]

/-- C1. On a fresh context `createShaderProgram` makes exactly two uploads: 48 bytes
(4 vertices of 3 floats of 4 bytes, the size of `vertices`) to the array buffer
target and 24 bytes (6 indices of 4 bytes, the size of `indices`) to the element
array target; afterwards the size of the buffer named by `VBO` is 48 and the size of
the buffer named by `EBO` is 24. -/
theorem upload_byte_sizes (p : Platform) (w : World) (hn : p.FreshNames) (hg : w.gl.Fresh) :
    (createShaderProgram p w).trace = w.trace ++ setupTrace p ∧
    (setupTrace p).filter Call.isUpload =
      [ Call.glBufferData BufferTarget.arrayBuffer (vertices.length * sizeofFloat)
          (BufferData.floats vertices),
        Call.glBufferData BufferTarget.elementArrayBuffer (indices.length * sizeofUInt)
          (BufferData.uints indices) ] ∧
    vertices.length * sizeofFloat = 48 ∧ vertices.length = 4 * 3 ∧ sizeofFloat = 4 ∧
    indices.length * sizeofUInt = 24 ∧ indices.length = 6 ∧ sizeofUInt = 4 ∧
    (createShaderProgram p w).gl.bufferSize (createShaderProgram p w).VBO = some 48 ∧
    (createShaderProgram p w).gl.bufferSize (createShaderProgram p w).EBO = some 24 := by
  have hs := createShaderProgram_eq p w hn hg
  have hne := hn.2.2.2.2.2.2.2.2.2
  refine ⟨by rw [hs]; rfl, setupTrace_uploads p, rfl, rfl, rfl, rfl, rfl, rfl, ?_, ?_⟩
  · rw [hs]
    simp [setupWorld, setupState, uploadedBuffers, GLState.bufferSize, GLState.findBuffer]
  · rw [hs]
    simp [setupWorld, setupState, uploadedBuffers, GLState.bufferSize, GLState.findBuffer, hne]

theorem upload_byte_sizes_witness :
    samplePlatform.FreshNames ∧ (beforeSetup samplePlatform).gl.Fresh ∧
    (createShaderProgram samplePlatform (beforeSetup samplePlatform)).gl.bufferSize 1 = some 48 ∧
    (createShaderProgram samplePlatform (beforeSetup samplePlatform)).gl.bufferSize 2 = some 24 :=
  ⟨by decide, by decide,
   (upload_byte_sizes samplePlatform (beforeSetup samplePlatform) (by decide)
      (by decide)).2.2.2.2.2.2.2.2.1,
   (upload_byte_sizes samplePlatform (beforeSetup samplePlatform) (by decide)
      (by decide)).2.2.2.2.2.2.2.2.2⟩

/-- C5. On a fresh context, whatever the compile and link steps decide:
`createShaderProgram` writes a diagnostic tagged VERTEX exactly when the vertex
shader did not compile, and one tagged FRAGMENT exactly when the fragment shader did
not compile; every diagnostic carries an info log of at most 512 bytes (terminating
NUL included); and the state-changing graphics calls it makes are the fixed list
`setupCalls`, which does not depend on any of the three outcomes. -/
theorem compile_failure_not_fatal (p : Platform) (w : World) (hn : p.FreshNames)
    (hg : w.gl.Fresh) :
    (createShaderProgram p w).console = w.console ++ diagnostics p ∧
    (diagnostics p).filter (ConsoleLine.hasTag DiagTag.vertex) =
      (if p.vertexCompiles then []
       else [ConsoleLine.diag DiagTag.vertex (p.vertexLog.take 511)]) ∧
    (diagnostics p).filter (ConsoleLine.hasTag DiagTag.fragment) =
      (if p.fragmentCompiles then []
       else [ConsoleLine.diag DiagTag.fragment (p.fragmentLog.take 511)]) ∧
    (∀ l ∈ diagnostics p, l.logBytes ≤ 512) ∧
    (createShaderProgram p w).trace = w.trace ++ setupTrace p ∧
    (setupTrace p).filter (fun c => !c.isQuery) = setupCalls p ∧
    (∀ vc fc lk : Bool,
      setupCalls { p with vertexCompiles := vc, fragmentCompiles := fc, links := lk } =
        setupCalls p) := by
  have hs := createShaderProgram_eq p w hn hg
  refine ⟨by rw [hs]; rfl, ?_, ?_, ?_, by rw [hs]; rfl, setupTrace_stateChanging p,
    fun _ _ _ => rfl⟩
  · rcases hv : p.vertexCompiles <;> rcases hf : p.fragmentCompiles <;>
      simp [diagnostics, ConsoleLine.hasTag, hv, hf, List.filter]
  · rcases hv : p.vertexCompiles <;> rcases hf : p.fragmentCompiles <;>
      simp [diagnostics, ConsoleLine.hasTag, hv, hf, List.filter]
  · intro l hl
    have h1 : (p.vertexLog.take 511).length ≤ 511 := by simp
    have h2 : (p.fragmentLog.take 511).length ≤ 511 := by simp
    rcases hv : p.vertexCompiles <;> rcases hf : p.fragmentCompiles <;>
      simp only [diagnostics, hv, hf, Bool.false_eq_true, ↓reduceIte, List.append_nil,
        List.nil_append, List.cons_append, List.mem_cons, List.mem_singleton,
        List.not_mem_nil, or_false] at hl
    · rcases hl with rfl | rfl | rfl <;> simp only [ConsoleLine.logBytes] <;> omega
    · rcases hl with rfl; simp only [ConsoleLine.logBytes]; omega
    · rcases hl with rfl | rfl <;> simp only [ConsoleLine.logBytes] <;> omega

theorem compile_failure_not_fatal_witness :
    brokenVertexPlatform.FreshNames ∧ (beforeSetup brokenVertexPlatform).gl.Fresh ∧
    (createShaderProgram brokenVertexPlatform (beforeSetup brokenVertexPlatform)).console =
      (beforeSetup brokenVertexPlatform).console ++ diagnostics brokenVertexPlatform :=
  ⟨by decide, by decide,
   (compile_failure_not_fatal brokenVertexPlatform (beforeSetup brokenVertexPlatform)
      (by decide) (by decide)).1⟩

/-- C7. On a fresh context, after `createShaderProgram`: the vertex array object
named by `VAO` records the buffer named by `EBO` as its element array buffer; its
attribute 0 is enabled, has 3 float components, stride 12 = 3 x 4 bytes and offset
0, and is sourced from the buffer named by `VBO`; the array buffer binding is 0 and
no vertex array object is bound.  Just before the vertex buffer is unbound it was
the array buffer binding, and the vertex array object was the same then as after. -/
theorem vertex_array_layout (p : Platform) (w : World) (hn : p.FreshNames) (hg : w.gl.Fresh) :
    (createShaderProgram p w).VAO = p.vaoName ∧ (createShaderProgram p w).VBO = p.vboName ∧
    (createShaderProgram p w).EBO = p.eboName ∧
    (createShaderProgram p w).gl.findVertexArray p.vaoName = some (describedArray p) ∧
    (describedArray p).elementArrayBinding = p.eboName ∧
    (describedArray p).attrib 0 =
      { enabled := true, size := 3, normalized := false, stride := 3 * sizeofFloat,
        offset := 0, buffer := p.vboName } ∧
    3 * sizeofFloat = 12 ∧
    (createShaderProgram p w).gl.arrayBufferBinding = 0 ∧
    (createShaderProgram p w).gl.vertexArrayBinding = 0 ∧
    createShaderProgram p w = unbindAfterUpload (beforeUnbind p w) ∧
    (beforeUnbind p w).gl.arrayBufferBinding = p.vboName ∧
    (beforeUnbind p w).gl.vertexArrayBinding = p.vaoName ∧
    (beforeUnbind p w).gl.findVertexArray p.vaoName = some (describedArray p) := by
  have hs := createShaderProgram_eq p w hn hg
  have hb := beforeUnbind_gl p w hn hg
  refine ⟨by rw [hs]; rfl, by rw [hs]; rfl, by rw [hs]; rfl, ?_, rfl, rfl, rfl,
    by rw [hs]; rfl, by rw [hs]; rfl, rfl, by rw [hb], by rw [hb], ?_⟩
  · rw [hs]
    simp [setupWorld, setupState, GLState.findVertexArray, describedArray]
  · rw [hb]
    simp [setupState, GLState.findVertexArray, describedArray]

theorem vertex_array_layout_witness :
    samplePlatform.FreshNames ∧ (beforeSetup samplePlatform).gl.Fresh ∧
    (createShaderProgram samplePlatform (beforeSetup samplePlatform)).gl.findVertexArray 1 =
      some (describedArray samplePlatform) :=
  ⟨by decide, by decide,
   (vertex_array_layout samplePlatform (beforeSetup samplePlatform) (by decide)
      (by decide)).2.2.2.1⟩

/-! ### The resize callback -/

/-- C8 (amended). For every width and height that are not negative and not above
the implementation's maximum viewport size, `framebuffer_size_callback` sets the
viewport to the rectangle with origin (0,0) and that width and height, records the
call, and changes nothing else. -/
theorem resize_sets_viewport (w : World) (width height : Int)
    (h1 : 0 ≤ width) (h2 : 0 ≤ height)
    (h3 : width ≤ w.gl.maxViewportWidth) (h4 : height ≤ w.gl.maxViewportHeight) :
    framebuffer_size_callback width height w =
      { w with gl := { w.gl with viewport := { x := 0, y := 0, width := width, height := height } }
               trace := w.trace ++ [Call.glViewport 0 0 width height] } := by
  have h5 : ¬ (width < 0 ∨ height < 0) := by omega
  simp [framebuffer_size_callback, World.call, glViewport, h5, min_eq_left h3, min_eq_left h4]

theorem resize_sets_viewport_witness :
    (framebuffer_size_callback 400 300 (beforeSetup samplePlatform)).gl.viewport =
      { x := 0, y := 0, width := 400, height := 300 } := by
  rw [resize_sets_viewport (beforeSetup samplePlatform) 400 300 (by decide) (by decide)
    (by decide) (by decide)]

/-- C8 as stated fails for a negative size (the viewport stays as it was and the
error flag is set) and for a size above the implementation's maximum (the viewport
is clamped). -/
theorem resize_counterexample :
    (framebuffer_size_callback (-1) 300 (beforeSetup samplePlatform)).gl.viewport ≠
      { x := 0, y := 0, width := -1, height := 300 } ∧
    (framebuffer_size_callback (-1) 300 (beforeSetup samplePlatform)).gl.viewport =
      { x := 0, y := 0, width := 800, height := 600 } ∧
    (framebuffer_size_callback (-1) 300 (beforeSetup samplePlatform)).gl.error =
      GLError.invalidValue ∧
    (beforeSetup samplePlatform).gl.error = GLError.noError ∧
    (framebuffer_size_callback 20000 300 (beforeSetup samplePlatform)).gl.viewport =
      { x := 0, y := 0, width := 16384, height := 300 } := by
  decide

/-! ### The mesh -/

/-- C10. Read as exact rationals, the three vertices of the second indexed triangle
(indices 1, 2, 3) all have y = -1/2 and z = 0 and are collinear, so its area is zero;
the first indexed triangle (indices 0, 1, 3) has area 1/4; every vertex lies in the
plane z = 0; the mesh covers the area of the first triangle only. -/
theorem second_triangle_degenerate :
    triangle 0 = [0, 1, 3] ∧ triangle 1 = [1, 2, 3] ∧
    (∀ k ∈ triangle 1, (vertexPos k).2.1 = -1 / 2 ∧ (vertexPos k).2.2 = 0) ∧
    (∀ k, k < 4 → (vertexPos k).2.2 = 0) ∧
    edgeCross (vertexPos 1) (vertexPos 2) (vertexPos 3) = (0, 0, 0) ∧
    triangleAreaSquared 1 = 0 ∧ triangleArea 1 = 0 ∧
    triangleAreaSquared 0 ≠ 0 ∧ triangleArea 0 = 1 / 4 ∧
    triangleArea 0 + triangleArea 1 = triangleArea 0 := by
  have hv0 : vertexPos 0 = (1 / 2, 1 / 2, 0) := by
    simp [vertexPos, vertices, FloatLit.toRat]; norm_num
  have hv1 : vertexPos 1 = (1 / 2, -1 / 2, 0) := by
    simp [vertexPos, vertices, FloatLit.toRat]; norm_num
  have hv2 : vertexPos 2 = (-1 / 2, -1 / 2, 0) := by
    simp [vertexPos, vertices, FloatLit.toRat]; norm_num
  have hv3 : vertexPos 3 = (1, -1 / 2, 0) := by
    simp [vertexPos, vertices, FloatLit.toRat]; norm_num
  have ht0 : triangle 0 = [0, 1, 3] := rfl
  have ht1 : triangle 1 = [1, 2, 3] := rfl
  have hc : edgeCross (vertexPos 1) (vertexPos 2) (vertexPos 3) = (0, 0, 0) := by
    rw [hv1, hv2, hv3]; simp [edgeCross]
  have ha1 : triangleArea 1 = 0 := by
    simp [triangleArea, planarArea, ht1, hc]
  have ha0 : triangleArea 0 = 1 / 4 := by
    simp [triangleArea, planarArea, ht0, hv0, hv1, hv3, edgeCross]; norm_num [abs_of_pos]
  refine ⟨ht0, ht1, ?_, ?_, hc, ?_, ha1, ?_, ha0, by rw [ha1, add_zero]⟩
  · intro k hk
    rw [ht1] at hk
    simp only [List.mem_cons, List.mem_singleton, List.not_mem_nil, or_false] at hk
    rcases hk with rfl | rfl | rfl
    · rw [hv1]; simp
    · rw [hv2]; simp
    · rw [hv3]; simp
  · intro k hk
    interval_cases k
    · rw [hv0]
    · rw [hv1]
    · rw [hv2]
    · rw [hv3]
  · simp [triangleAreaSquared, areaSquared, ht1, hc]
  · simp [triangleAreaSquared, areaSquared, ht0, hv0, hv1, hv3, edgeCross]; norm_num

/-! ### The link status check -/

/-- C4, the code at a failing input: the vertex shader does not compile, the
fragment shader does, linking fails; the program is not linked, and the console shows
the vertex diagnostic only, no diagnostic tagged PROGRAM. -/
theorem link_failure_unreported :
    ((createShaderProgram brokenVertexPlatform (beforeSetup brokenVertexPlatform)).gl.findProgram
      (createShaderProgram brokenVertexPlatform (beforeSetup brokenVertexPlatform)).shaderProgram).map
        (fun o => o.linked) = some false ∧
    (createShaderProgram brokenVertexPlatform (beforeSetup brokenVertexPlatform)).console =
      [ConsoleLine.diag DiagTag.vertex [48, 58, 49]] ∧
    (createShaderProgram brokenVertexPlatform (beforeSetup brokenVertexPlatform)).console.filter
      (ConsoleLine.hasTag DiagTag.program) = [] := by
  decide

/-- On a fresh context the diagnostic tagged PROGRAM is written exactly when the
fragment shader did not compile, whatever the link step decided, and it carries the
fragment shader's log. -/
theorem program_diagnostic_follows_fragment (p : Platform) (w : World) (hn : p.FreshNames)
    (hg : w.gl.Fresh) :
    (createShaderProgram p w).console = w.console ++ diagnostics p ∧
    (diagnostics p).filter (ConsoleLine.hasTag DiagTag.program) =
      (if p.fragmentCompiles then []
       else [ConsoleLine.diag DiagTag.program (p.fragmentLog.take 511)]) := by
  have hs := createShaderProgram_eq p w hn hg
  refine ⟨by rw [hs]; rfl, ?_⟩
  rcases hv : p.vertexCompiles <;> rcases hf : p.fragmentCompiles <;>
    simp [diagnostics, ConsoleLine.hasTag, hv, hf, List.filter]

/-! ### The loop as a step relation -/

theorem processInput_shouldClose (e : Bool) (w : World) :
    (processInput e w).shouldClose = (w.shouldClose || e) := by
  unfold processInput
  rcases e <;> simp [World.note]

theorem processInput_counts (e : Bool) (w : World) :
    clears (processInput e w).trace = clears w.trace ∧
    draws (processInput e w).trace = draws w.trace ∧
    swaps (processInput e w).trace = swaps w.trace := by
  unfold processInput
  rcases e <;> simp [World.note, clears, draws, swaps]

theorem glfwPollEvents_counts (i : FrameInput) (w : World) :
    clears (glfwPollEvents i w).trace = clears w.trace ∧
    draws (glfwPollEvents i w).trace = draws w.trace ∧
    swaps (glfwPollEvents i w).trace = swaps w.trace := by
  have h := resizes_foldl_inv
    (fun v => clears v.trace = clears w.trace ∧ draws v.trace = draws w.trace ∧
      swaps v.trace = swaps w.trace)
    (fun a b v hv => by
      simpa [framebuffer_size_callback, World.call, clears, draws, swaps] using hv)
    i.resizes (w.note Call.glfwPollEvents) (by simp [World.note, clears, draws, swaps])
  unfold glfwPollEvents
  rcases i.closeRequested <;> simpa using h

theorem loopRun_closing (p : Platform) (j : Nat) (st : LoopState) (h : st.pc = LoopPc.closing) :
    loopRun p j st = st := by
  induction j with
  | zero => rfl
  | succ j ih =>
    have hs : loopStep p st = st := by
      unfold loopStep; rw [h]
    rw [loopRun, hs, ih]

theorem loopRun_add (p : Platform) (a b : Nat) (st : LoopState) :
    loopRun p (a + b) st = loopRun p b (loopRun p a st) := by
  induction a generalizing st with
  | zero => simp [loopRun]
  | succ a ih => rw [Nat.succ_add, loopRun, loopRun, ih]

theorem loopRun_to_closing (p : Platform) (st : LoopState) (hf : st.world.shouldClose = true) :
    (loopRun p (stepsToClose st.pc) st).pc = LoopPc.closing ∧
    clears (loopRun p (stepsToClose st.pc) st).world.trace =
      clears st.world.trace + (remaining st.pc).1 ∧
    draws (loopRun p (stepsToClose st.pc) st).world.trace =
      draws st.world.trace + (remaining st.pc).2.1 ∧
    swaps (loopRun p (stepsToClose st.pc) st).world.trace =
      swaps st.world.trace + (remaining st.pc).2.2 ∧
    (loopRun p (stepsToClose st.pc) st).pass ≤ st.pass + 1 := by
  obtain ⟨pc, n, w⟩ := st
  simp only at hf
  have hp := glfwPollEvents_shouldClose
  have hc := glfwPollEvents_counts
  have hi := processInput_shouldClose
  have hic := processInput_counts
  simp only [clears, draws, swaps] at hc hic ⊢
  cases pc <;>
    simp [stepsToClose, remaining, loopRun, loopStep, World.note, World.call, hf, hp, hi,
      (hc _ _).1, (hc _ _).2.1, (hc _ _).2.2, (hic _ _).1, (hic _ _).2.1, (hic _ _).2.2]

theorem loopRun_pass (p : Platform) (n : Nat) (w : World) (h : w.shouldClose = false) :
    loopRun p 9 { pc := LoopPc.head, pass := n, world := w } =
      { pc := LoopPc.head, pass := n + 1
        world := renderFrame (p.frames n) (w.note Call.glfwWindowShouldClose) } := by
  simp [loopRun, loopStep, renderFrame, prepareDraw, World.note, World.call, h]

theorem renderLoop_as_steps (p : Platform) (fuel n : Nat) (w v : World)
    (hr : renderLoop p fuel n w = some v) :
    ∃ k m, loopRun p k { pc := LoopPc.head, pass := n, world := w } =
      { pc := LoopPc.closing, pass := m, world := v } := by
  induction fuel generalizing n w with
  | zero => simp [renderLoop] at hr
  | succ fuel ih =>
    unfold renderLoop at hr
    simp only at hr
    split at hr
    · rename_i hc
      cases hr
      exact ⟨1, n, by simp [loopRun, loopStep, hc]⟩
    · rename_i hc
      obtain ⟨k, m, hk⟩ := ih _ _ hr
      refine ⟨9 + k, m, ?_⟩
      rw [loopRun_add, loopRun_pass p n w (by simpa [World.note] using hc), hk]

theorem renderLoop_open (p : Platform) (fuel n : Nat) (w : World) (h : w.shouldClose = false) :
    renderLoop p (fuel + 1) n w =
      renderLoop p fuel (n + 1) (renderFrame (p.frames n) (w.note Call.glfwWindowShouldClose)) := by
  have hn : (w.note Call.glfwWindowShouldClose).shouldClose = false := h
  rw [renderLoop]
  simp only [hn, Bool.false_eq_true, ↓reduceIte]

theorem renderLoop_closed (p : Platform) (fuel n : Nat) (w : World) (h : w.shouldClose = true) :
    renderLoop p (fuel + 1) n w = some (w.note Call.glfwWindowShouldClose) := by
  have hn : (w.note Call.glfwWindowShouldClose).shouldClose = true := h
  rw [renderLoop]
  simp only [hn, ↓reduceIte]

theorem loopStep_shouldClose (p : Platform) (st : LoopState) (h : st.world.shouldClose = true) :
    (loopStep p st).world.shouldClose = true := by
  obtain ⟨pc, n, w⟩ := st
  simp only at h
  cases pc <;>
    simp [loopStep, World.note, World.call, h, glfwPollEvents_shouldClose,
      processInput_shouldClose]

theorem loopRun_shouldClose (p : Platform) (j : Nat) (st : LoopState)
    (h : st.world.shouldClose = true) : (loopRun p j st).world.shouldClose = true := by
  induction j generalizing st with
  | zero => simpa [loopRun] using h
  | succ j ih => exact ih _ (loopStep_shouldClose p st h)

/-- C2. The render loop as a step relation.  The close flag is set by `processInput`
when the escape key is seen pressed and by `glfwPollEvents` when a close request is
delivered, and no statement of the loop clears it.  From any state whose close flag
is set, within at most 9 statements the loop is in phase Closing, having made exactly
the clears, draws and swaps that remained of the current pass and having started no
further pass; from then on the state never changes.  In terms of the loop of `main`:
if the flag is set during a pass, the loop returns at the next test. -/
theorem close_flag_ends_loop (p : Platform) (st : LoopState) :
    (st.pc = LoopPc.input → (p.frames st.pass).escapePressed = true →
      (loopStep p st).world.shouldClose = true) ∧
    (st.pc = LoopPc.poll → (p.frames st.pass).closeRequested = true →
      (loopStep p st).world.shouldClose = true) ∧
    (st.world.shouldClose = true →
      ∃ k, k ≤ 9 ∧ (loopRun p k st).phase = Phase.Closing ∧
        clears (loopRun p k st).world.trace = clears st.world.trace + (remaining st.pc).1 ∧
        draws (loopRun p k st).world.trace = draws st.world.trace + (remaining st.pc).2.1 ∧
        swaps (loopRun p k st).world.trace = swaps st.world.trace + (remaining st.pc).2.2 ∧
        (loopRun p k st).pass ≤ st.pass + 1 ∧
        (∀ j, loopRun p (k + j) st = loopRun p k st) ∧
        (∀ j, (loopRun p j st).world.shouldClose = true)) ∧
    (∀ fuel, st.world.shouldClose = false →
      (renderFrame (p.frames st.pass) st.world).shouldClose = true →
      renderLoop p (fuel + 2) st.pass st.world =
        some ((renderFrame (p.frames st.pass)
          (st.world.note Call.glfwWindowShouldClose)).note Call.glfwWindowShouldClose)) := by
  refine ⟨?_, ?_, ?_, ?_⟩
  · intro hpc he
    obtain ⟨pc, n, w⟩ := st
    simp only at hpc he
    subst hpc
    simp [loopStep, processInput_shouldClose, he]
  · intro hpc he
    obtain ⟨pc, n, w⟩ := st
    simp only at hpc he
    subst hpc
    simp [loopStep, glfwPollEvents_shouldClose, he]
  · intro hf
    obtain ⟨h1, h2, h3, h4, h5⟩ := loopRun_to_closing p st hf
    refine ⟨stepsToClose st.pc, ?_, ?_, h2, h3, h4, h5, ?_, ?_⟩
    · cases st.pc <;> simp [stepsToClose]
    · simp [LoopState.phase, h1]
    · intro j
      rw [loopRun_add, loopRun_closing p j _ h1]
    · intro j
      exact loopRun_shouldClose p j st hf
  · intro fuel hf hs
    have hs2 : (renderFrame (p.frames st.pass)
        (st.world.note Call.glfwWindowShouldClose)).shouldClose = true := by
      rw [renderFrame_shouldClose] at hs ⊢
      simpa [World.note] using hs
    rw [renderLoop_open p (fuel + 1) st.pass st.world hf, renderLoop_closed p fuel _ _ hs2]

theorem close_flag_ends_loop_witness :
    ∃ k, k ≤ 9 ∧
      (loopRun samplePlatform k
        { pc := LoopPc.useProgram, pass := 1
          world := { beforeSetup samplePlatform with shouldClose := true } }).phase =
        Phase.Closing ∧
      draws (loopRun samplePlatform k
        { pc := LoopPc.useProgram, pass := 1
          world := { beforeSetup samplePlatform with shouldClose := true } }).world.trace = 1 := by
  obtain ⟨k, h1, h2, _, h4, _⟩ := (close_flag_ends_loop samplePlatform
    { pc := LoopPc.useProgram, pass := 1
      world := { beforeSetup samplePlatform with shouldClose := true } }).2.2.1 rfl
  exact ⟨k, h1, h2, h4⟩

end HelloTriangle
